import Mathlib

/-!
Shallow embedding of the QTI USB gadget HAL (`hal/UsbGadget.cpp`,
android.hardware.usb.gadget@1.1-service-qti).

The embedding models the composition-resolution and apply/teardown logic:
`getModemType`, `addFunctionsFromPropString`, `lookupAndSetVidPid`,
`validateAndSetVidPid`, `setupFunctions`, `setCurrentUsbFunctions`,
`getCurrentUsbFunctions`, together with the static tables
`supported_compositions` and `supported_funcs`.

External collaborators (configfs link/unlink primitives, `setVidPid`,
`resetGadget`, pull-up file writes, the FFS readiness monitor, the property
store, and `addGenericAndroidFunctions`/`addAdb` from `UsbGadgetCommon`) are
modelled as oracles carried in an environment record `Env`; system properties
are strings where `""` means unset (android::base::GetProperty substitutes the
default for empty or missing values).

State mirrors the observable gadget state: the ordered list of linked
function nodes (configfs symlinks with their index), the committed VID/PID,
the pull-up, the applied flag, the stored current-functions bitmask, and the
callback invocations delivered to the caller.
-/

/-- Status values of android.hardware.usb.gadget@1.0::Status. -/
inductive UStatus where
  | SUCCESS
  | ERROR
  | FUNCTION_NOT_SUPPORTED
  | CONFIGURATION_NOT_SUPPORTED
  | FUNCTIONS_APPLIED
  | FUNCTIONS_NOT_APPLIED
deriving DecidableEq, Repr

/-- The `mdmType` enum: INTERNAL = 0, EXTERNAL = 1, INTERNAL_EXTERNAL = 2,
NONE = 3.  (The numeric value of INTERNAL being 0 matters: the source tests
the enum for truthiness.) -/
inductive Mdm where
  | INTERNAL
  | EXTERNAL
  | INTERNAL_EXTERNAL
  | NONE
deriving DecidableEq, Repr

/-- GadgetFunction bit constants of android.hardware.usb.gadget@1.0. -/
def GadgetFunction.NONE : Nat := 0

def GadgetFunction.ADB : Nat := 1

def GadgetFunction.ACCESSORY : Nat := 2

def GadgetFunction.MTP : Nat := 4

def GadgetFunction.MIDI : Nat := 8

def GadgetFunction.PTP : Nat := 16

def GadgetFunction.RNDIS : Nat := 32

def GadgetFunction.AUDIO_SOURCE : Nat := 64

/-- One directory entry under /sys/bus/esoc/devices: the entry name and the
content of its `esoc_name` attribute (`none` when unreadable). -/
structure EsocEntry where
  name : String
  esocName : Option String
deriving DecidableEq, Repr

/-- One configfs function link: the token it was resolved from (the key into
`supported_funcs`, or "adb" for the dedicated `addAdb` link), the resolved
device-node name, and the ordinal index passed to `linkFunction`. -/
structure LinkEntry where
  tok : String
  node : String
  idx : Nat
deriving DecidableEq, Repr

/-- The part of the state touched by the linking/resolution code: configfs
links, the running link index `i`, the local `ffsEnabled` flag, the currently
committed VID/PID, and a ghost append-only log of successful `setVidPid`
commits. -/
structure LinkSt where
  linked : List LinkEntry
  nextIdx : Nat
  ffsEnabled : Bool
  vidpid : Option (String × String)
  vidpidLog : List (String × String)
deriving DecidableEq, Repr

/-- Full gadget state: link-phase state plus pull-up, the shared
`mCurrentUsbFunctionsApplied` flag, the stored `mCurrentUsbFunctions`
bitmask, whether the FFS monitor is running, and a ghost append-only log of
`setCurrentUsbFunctionsCb` invocations delivered to the caller. -/
structure GState where
  link : LinkSt
  pulledUp : Bool
  applied : Bool
  currentFunctions : Nat
  monitorStarted : Bool
  cbResults : List (Nat × UStatus)
deriving DecidableEq, Repr

/-- Environment: property values ("" = unset), hardware probe results, and
oracles for the external collaborator primitives. -/
structure Env where
  usbController : String
  vendorUsb : String
  persistVendorUsb : String
  diagFunc : String
  rndisFunc : String
  rmnetFunc : String
  rmnetInst : String
  dplInst : String
  qdssInst : String
  esocDir : Option (List EsocEntry)
  socMachine : Option String
  linkOk : String → Nat → Bool
  setVidPidOk : String → String → Bool
  resetOk : Bool
  writePullupOk : Bool
  waitForPullUpResult : Bool
  genericLinks : Nat → List (String × String)
  genericFfs : Nat → Bool
  genericOk : Nat → Bool

/-- android::base::GetProperty: returns the default when the property is
empty or missing. -/
def getProp (v d : String) : String := if v = "" then d else v

/-- Boolean substring test, mirroring `std::string::find(pat) != npos`. -/
def containsSub (s pat : String) : Bool :=
  s.toList.tails.any fun t => pat.toList.isPrefixOf t

/-- Helper for `splitComma`: `acc` holds the current token reversed. -/
def splitCommaAux : List Char → List Char → List String
  | [], acc => [String.mk acc.reverse]
  | c :: rest, acc =>
    if c = ',' then String.mk acc.reverse :: splitCommaAux rest []
    else splitCommaAux rest (c :: acc)

/-- Tokenization of a composition string on ',', as performed by the loop in
`addFunctionsFromPropString` (empty tokens are produced by adjacent, leading
or trailing commas, and the empty string yields one empty token). -/
def splitComma (s : String) : List String := splitCommaAux s.toList []

/-- The static composition → (VID, PID) table `supported_compositions`,
in source order. -/
def supported_compositions : List (String × String × String) := [
  ("mass_storage", "0x05C6", "0xF000"),
  ("mass_storage,adb", "0x05C6", "0x9015"),
  ("diag,adb", "0x05C6", "0x901D"),
  ("diag", "0x05C6", "0x900E"),
  ("diag,serial_cdev,rmnet,adb", "0x05C6", "0x9091"),
  ("diag,serial_cdev,rmnet", "0x05C6", "0x9092"),
  ("rndis", "0x05C6", "0xF00E"),
  ("rndis,adb", "0x05C6", "0x9024"),
  ("rndis,diag", "0x05C6", "0x902C"),
  ("rndis,diag,adb", "0x05C6", "0x902D"),
  ("rndis,serial_cdev", "0x05C6", "0x90B3"),
  ("rndis,serial_cdev,adb", "0x05C6", "0x90B4"),
  ("rndis,serial_cdev,diag,", "0x05C6", "0x90B5"),
  ("rndis,serial_cdev,diag,adb", "0x05C6", "0x90B6"),
  ("mtp,diag", "0x05C6", "0x901B"),
  ("mtp,diag,adb", "0x05C6", "0x903A"),
  ("diag,qdss", "0x05C6", "0x904A"),
  ("diag,qdss,adb", "0x05C6", "0x9060"),
  ("rndis,diag,qdss", "0x05C6", "0x9081"),
  ("rndis,diag,qdss,adb", "0x05C6", "0x9082"),
  ("diag,qdss,rmnet", "0x05C6", "0x9083"),
  ("diag,qdss,rmnet,adb", "0x05C6", "0x9084"),
  ("ncm", "0x05C6", "0xA4A1"),
  ("ncm,adb", "0x05C6", "0x908C"),
  ("diag,serial_cdev", "0x05C6", "0x9004"),
  ("diag,serial_cdev,rmnet,dpl", "0x05C6", "0x90B7"),
  ("diag,serial_cdev,rmnet,dpl,adb", "0x05C6", "0x90B8"),
  ("rndis,diag,dpl", "0x05C6", "0x90BF"),
  ("rndis,diag,dpl,adb", "0x05C6", "0x90C0"),
  ("ccid", "0x05C6", "0x90CE"),
  ("ccid,adb", "0x05C6", "0x90CF"),
  ("ccid,diag", "0x05C6", "0x90D0"),
  ("ccid,diag,adb", "0x05C6", "0x90D1"),
  ("diag,serial_cdev,rmnet,ccid", "0x05C6", "0x90D2"),
  ("diag,serial_cdev,rmnet,ccid,adb", "0x05C6", "0x90D3"),
  ("diag,diag_mdm,qdss,qdss_mdm,serial_cdev,serial_cdev_mdm,rmnet", "0x05C6", "0x90D7"),
  ("diag,diag_mdm,qdss,qdss_mdm,serial_cdev,serial_cdev_mdm,rmnet,adb", "0x05C6", "0x90D8"),
  ("diag,diag_mdm,qdss,qdss_mdm,serial_cdev,serial_cdev_mdm,dpl,rmnet", "0x05C6", "0x90DD"),
  ("diag,diag_mdm,qdss,qdss_mdm,serial_cdev,serial_cdev_mdm,dpl,rmnet,adb", "0x05C6", "0x90DE"),
  ("diag,serial_cdev,rmnet,dpl,qdss", "0x05C6", "0x90DC"),
  ("diag,serial_cdev,rmnet,dpl,qdss,adb", "0x05C6", "0x90DB"),
  ("diag,uac2,adb", "0x05C6", "0x90CA"),
  ("diag,uac2", "0x05C6", "0x901C"),
  ("diag,uvc,adb", "0x05C6", "0x90CB"),
  ("diag,uvc", "0x05C6", "0x90DF"),
  ("diag,uac2,uvc,adb", "0x05C6", "0x90CC"),
  ("diag,uac2,uvc", "0x05C6", "0x90E0"),
  ("diag,diag_mdm,qdss,qdss_mdm,serial_cdev,dpl,rmnet", "0x05C6", "0x90E4"),
  ("diag,diag_mdm,qdss,qdss_mdm,serial_cdev,dpl,rmnet,adb", "0x05C6", "0x90E5"),
  ("rndis,diag,diag_mdm,qdss,qdss_mdm,serial_cdev,dpl", "0x05C6", "0x90E6"),
  ("rndis,diag,diag_mdm,qdss,qdss_mdm,serial_cdev,dpl,adb", "0x05C6", "0x90E7"),
  ("rndis,diag,qdss,serial_cdev,dpl", "0x05C6", "0x90E8"),
  ("rndis,diag,qdss,serial_cdev,dpl,adb", "0x05C6", "0x90E9"),
  ("diag,diag_mdm,adb", "0x05C6", "0x90D9"),
  ("diag,diag_mdm,diag_mdm2,qdss,qdss_mdm,serial_cdev,dpl,rmnet", "0x05C6", "0x90F6"),
  ("diag,diag_mdm,diag_mdm2,qdss,qdss_mdm,serial_cdev,dpl,rmnet,adb", "0x05C6", "0x90F7"),
  ("rndis,diag,diag_mdm,diag_mdm2,qdss,qdss_mdm,serial_cdev,dpl", "0x05C6", "0x90F8"),
  ("rndis,diag,diag_mdm,diag_mdm2,qdss,qdss_mdm,serial_cdev,dpl,adb", "0x05C6", "0x90F9"),
  ("diag,diag_mdm,qdss_mdm,dpl,adb", "0x05C6", "0x90FF"),
  ("diag,qdss,dpl,adb", "0x05C6", "0x9104"),
  ("diag,dpl", "0x05C6", "0x9105"),
  ("diag,diag_cnss,serial_cdev,rmnet,dpl,qdss,adb", "0x05C6", "0x9110"),
  ("diag,diag_cnss,serial_cdev,rmnet,dpl,qdss", "0x05C6", "0x9111")]

/-- Source `rndisFuncname()`: name of the RNDIS function node, from the
vendor.usb.rndis.func.name property. -/
def rndisFuncname (env : Env) : String :=
  let rndisFunc := getProp env.rndisFunc ""
  if rndisFunc = "" then "rndis" else rndisFunc ++ ".rndis"

/-- The `supported_funcs` map: atomic function token → resolved device-node
name (some resolutions read properties).  `none` when the token is not a key
of the map (`supported_funcs.count(funcname) == 0`). -/
def supported_funcs (env : Env) (name : String) : Option String :=
  if name = "adb" then some "ffs.adb"
  else if name = "ccid" then some "ccid.ccid"
  else if name = "diag" then some (getProp env.diagFunc "diag" ++ ".diag")
  else if name = "diag_cnss" then some (getProp env.diagFunc "diag" ++ ".diag_mdm2")
  else if name = "diag_mdm2" then some (getProp env.diagFunc "diag" ++ ".diag_mdm2")
  else if name = "diag_mdm" then some (getProp env.diagFunc "diag" ++ ".diag_mdm")
  else if name = "dpl" then
    some (getProp env.rmnetFunc "gsi" ++ "." ++ getProp env.dplInst "dpl")
  else if name = "mass_storage" then some "mass_storage.0"
  else if name = "mtp" then some "ffs.mtp"
  else if name = "ncm" then some "ncm.0"
  else if name = "ptp" then some "ffs.ptp"
  else if name = "qdss" then some ("qdss." ++ getProp env.qdssInst "qdss")
  else if name = "qdss_mdm" then some "qdss.qdss_mdm"
  else if name = "rmnet" then
    some (getProp env.rmnetFunc "gsi" ++ "." ++ getProp env.rmnetInst "rmnet")
  else if name = "rndis" then some (rndisFuncname env)
  else if name = "serial_cdev" then some "cser.dun.0"
  else if name = "serial_cdev_mdm" then some "cser.dun.2"
  else if name = "uac2" then some "uac2.0"
  else if name = "uvc" then some "uvc.0"
  else none

/-- Does the entry name start with '.' (hidden entries are skipped by the
readdir loop)? -/
def startsWithDot (s : String) : Bool :=
  match s.toList with
  | c :: _ => c = '.'
  | [] => false

/-- The readdir loop of `getModemType`: does some non-hidden entry's readable
`esoc_name` contain "MDM" or "SDX"? -/
def esocExternal (entries : List EsocEntry) : Bool :=
  entries.any fun e =>
    !startsWithDot e.name &&
      (match e.esocName with
       | some c => containsSub c "MDM" || containsSub c "SDX"
       | none => false)

/-- Source test `soc_machine.find_last_of('P') == length - 1`: the last character is 'P'
(for the empty string both sides are npos, so the test holds). -/
def endsWithPMarker (s : String) : Bool :=
  match s.toList.getLast? with
  | none => true
  | some c => c = 'P'

/-- Source `getModemType()`: classify the modem topology.  Note that because
INTERNAL = 0, the expression `mtype = mtype ? mtype : NONE` keeps an
EXTERNAL finding and turns only a tentative INTERNAL into NONE; the
marker check then short-circuits (goto done) past the INTERNAL_EXTERNAL
refinement. -/
def getModemType (env : Env) : Mdm :=
  match env.esocDir with
  | none => Mdm.INTERNAL
  | some entries =>
    let m1 := if esocExternal entries then Mdm.EXTERNAL else Mdm.INTERNAL
    match env.socMachine with
    | none => m1
    | some soc =>
      if containsSub soc "SDA" || endsWithPMarker soc then
        (if m1 = Mdm.INTERNAL then Mdm.NONE else m1)
      else if m1 ≠ Mdm.INTERNAL then Mdm.INTERNAL_EXTERNAL
      else m1

/-- One `linkFunction(node, i++)` call: on success the node is linked at
index `nextIdx`; the index is advanced in either case (post-increment). -/
def linkOne (env : Env) (tok node : String) (st : LinkSt) : LinkSt × Bool :=
  if env.linkOk node st.nextIdx then
    ({ st with
        linked := st.linked ++ [⟨tok, node, st.nextIdx⟩],
        nextIdx := st.nextIdx + 1 }, true)
  else ({ st with nextIdx := st.nextIdx + 1 }, false)

/-- The token loop of `addFunctionsFromPropString`: skip "adb" tokens when
`adb` is false, fail on a token that is not a key of `supported_funcs`,
otherwise resolve and link it. -/
def addFuncTokens (env : Env) (adb : Bool) : List String → LinkSt → LinkSt × Bool
  | [], st => (st, true)
  | tok :: rest, st =>
    if adb = false ∧ tok = "adb" then addFuncTokens env adb rest st
    else
      match supported_funcs env tok with
      | none => (st, false)
      | some node =>
        if env.linkOk node st.nextIdx then
          addFuncTokens env adb rest
            { st with
                linked := st.linked ++ [⟨tok, node, st.nextIdx⟩],
                nextIdx := st.nextIdx + 1 }
        else ({ st with nextIdx := st.nextIdx + 1 }, false)

/-- Source `addFunctionsFromPropString(prop, i, adb)` (true result = returned 0). -/
def addFunctionsFromPropString (env : Env) (prop : String) (adb : Bool)
    (st : LinkSt) : LinkSt × Bool :=
  addFuncTokens env adb (splitComma prop) st

/-- One `setVidPid(vid, pid)` call through the external-collaborator oracle;
successful commits are recorded in the ghost log. -/
def setVidPidM (env : Env) (vid pid : String) (st : LinkSt) : LinkSt × Bool :=
  if env.setVidPidOk vid pid then
    ({ st with
        vidpid := some (vid, pid),
        vidpidLog := st.vidpidLog ++ [(vid, pid)] }, true)
  else (st, false)

/-- Source `lookupAndSetVidPid(prop)`: exact-key lookup in `supported_compositions`,
then `setVidPid` (true result = returned 0). -/
def lookupAndSetVidPid (env : Env) (prop : String) (st : LinkSt) :
    LinkSt × Bool :=
  match supported_compositions.lookup prop with
  | none => (st, false)
  | some (vid, pid) => setVidPidM env vid pid st

/-- Source `validateAndSetVidPid(functions)`: the Generic Combination Rule mapping a
public capability bitmask to a fixed Google VID/PID;  any other combination is
CONFIGURATION_NOT_SUPPORTED. -/
def validateAndSetVidPid (env : Env) (functions : Nat) (st : LinkSt) :
    LinkSt × UStatus :=
  let run : String → String → LinkSt × UStatus := fun vid pid =>
    match setVidPidM env vid pid st with
    | (st1, true) => (st1, UStatus.SUCCESS)
    | (st1, false) => (st1, UStatus.ERROR)
  if functions = GadgetFunction.ADB then run "0x18d1" "0x4ee7"
  else if functions = GadgetFunction.MTP then run "0x18d1" "0x4ee1"
  else if functions = GadgetFunction.ADB ||| GadgetFunction.MTP then run "0x18d1" "0x4ee2"
  else if functions = GadgetFunction.RNDIS then run "0x18d1" "0x4ee3"
  else if functions = GadgetFunction.ADB ||| GadgetFunction.RNDIS then run "0x18d1" "0x4ee4"
  else if functions = GadgetFunction.PTP then run "0x18d1" "0x4ee5"
  else if functions = GadgetFunction.ADB ||| GadgetFunction.PTP then run "0x18d1" "0x4ee6"
  else if functions = GadgetFunction.MIDI then run "0x18d1" "0x4ee8"
  else if functions = GadgetFunction.ADB ||| GadgetFunction.MIDI then run "0x18d1" "0x4ee9"
  else if functions = GadgetFunction.ACCESSORY then run "0x18d1" "0x2d00"
  else if functions = GadgetFunction.ADB ||| GadgetFunction.ACCESSORY then run "0x18d1" "0x2d01"
  else if functions = GadgetFunction.AUDIO_SOURCE then run "0x18d1" "0x2d02"
  else if functions = GadgetFunction.ADB ||| GadgetFunction.AUDIO_SOURCE then run "0x18d1" "0x2d03"
  else if functions = GadgetFunction.ACCESSORY ||| GadgetFunction.AUDIO_SOURCE then run "0x18d1" "0x2d04"
  else if functions = GadgetFunction.ADB ||| GadgetFunction.ACCESSORY ||| GadgetFunction.AUDIO_SOURCE then run "0x18d1" "0x2d05"
  else (st, UStatus.CONFIGURATION_NOT_SUPPORTED)

/-- Turn (token, node) pairs into link entries at consecutive indices
starting at `k`. -/
def indexFrom (k : Nat) : List (String × String) → List LinkEntry
  | [] => []
  | p :: rest => ⟨p.1, p.2, k⟩ :: indexFrom (k + 1) rest

/-- Source `addGenericAndroidFunctions` (UsbGadgetCommon, external collaborator):
links the nodes the oracle reports for this bitmask starting at the current
index, may set `ffsEnabled`, and reports success or failure. -/
def addGeneric (env : Env) (functions : Nat) (st : LinkSt) : LinkSt × Bool :=
  let pairs := env.genericLinks functions
  ({ st with
      linked := st.linked ++ indexFrom st.nextIdx pairs,
      nextIdx := st.nextIdx + pairs.length,
      ffsEnabled := st.ffsEnabled || env.genericFfs functions },
   env.genericOk functions)

/-- Source `unlinkFunctions(CONFIG_PATH)` followed by `i = 0`: all configfs function
links are removed. -/
def unlinkAll (st : LinkSt) : LinkSt :=
  { st with linked := [], nextIdx := 0 }

/-- RNDIS+ADB default composition string chosen by modem topology
(`setupFunctions`, first switch). -/
def rndisAdbComp : Mdm → String
  | Mdm.EXTERNAL => "rndis,diag,diag_mdm,qdss,qdss_mdm,serial_cdev,dpl,adb"
  | Mdm.INTERNAL_EXTERNAL => "rndis,diag,diag_mdm,qdss,qdss_mdm,serial_cdev,dpl,adb"
  | Mdm.INTERNAL => "rndis,diag,qdss,serial_cdev,dpl,adb"
  | Mdm.NONE => "rndis,adb"

/-- ADB-only QC default composition string chosen by modem topology
(`setupFunctions`, second switch). -/
def adbDefaultComp : Mdm → String
  | Mdm.EXTERNAL => "diag,diag_mdm,qdss,qdss_mdm,serial_cdev,dpl,rmnet,adb"
  | Mdm.INTERNAL_EXTERNAL => "diag,diag_mdm,qdss,qdss_mdm,serial_cdev,dpl,rmnet,adb"
  | Mdm.INTERNAL => "diag,serial_cdev,rmnet,dpl,qdss,adb"
  | Mdm.NONE => "diag,adb"

/-- The six built-in topology-default composition strings. -/
def defaultCompositions : List String :=
  [rndisAdbComp Mdm.EXTERNAL, rndisAdbComp Mdm.INTERNAL, rndisAdbComp Mdm.NONE,
   adbDefaultComp Mdm.EXTERNAL, adbDefaultComp Mdm.INTERNAL, adbDefaultComp Mdm.NONE]

/-- Sequencing of link-phase steps that abort on failure. -/
def andThen (r : LinkSt × Bool) (f : LinkSt → LinkSt × Bool) : LinkSt × Bool :=
  match r with
  | (st, true) => f st
  | (st, false) => (st, false)

/-- The effective vendor override string:
GetProperty(VENDOR_USB_PROP, GetProperty(PERSIST_VENDOR_USB_PROP, "")). -/
def vendorPropOf (env : Env) : String :=
  getProp env.vendorUsb (getProp env.persistVendorUsb "")

/-- The override string after the "tack on ADB" step: ",adb" is appended
unless "adb" already occurs as a substring. -/
def overrideStr (env : Env) : String :=
  let vp := vendorPropOf env
  if containsSub vp "adb" then vp else vp ++ ",adb"

/-- First branch of `setupFunctions`: the RNDIS branch (with the RNDIS+ADB
composition by topology, or a single RNDIS link), else
`addGenericAndroidFunctions`. -/
def branch1 (env : Env) (functions : Nat) (mtype : Mdm) (st : LinkSt) :
    LinkSt × Bool :=
  if functions &&& GadgetFunction.RNDIS ≠ 0 then
    if functions &&& GadgetFunction.ADB ≠ 0 then
      andThen (addFunctionsFromPropString env (rndisAdbComp mtype) false st)
        (fun st1 => lookupAndSetVidPid env (rndisAdbComp mtype) st1)
    else linkOne env "rndis" (rndisFuncname env) st
  else addGeneric env functions st

/-- Link the topology-default ADB composition and look up its VID/PID (the
tail of the override block). -/
def tryDefault (env : Env) (mtype : Mdm) (st : LinkSt) : LinkSt × Bool :=
  andThen (addFunctionsFromPropString env (adbDefaultComp mtype) false st)
    (fun st2 => lookupAndSetVidPid env (adbDefaultComp mtype) st2)

/-- The "override adb-only with additional QTI functions" block: when no
function was linked yet and ADB is requested, try the vendor override string
(rolling back all links on failure), then fall back to the topology default
composition. -/
def overrideBlock (env : Env) (functions : Nat) (mtype : Mdm) (st : LinkSt) :
    LinkSt × Bool :=
  if st.nextIdx = 0 ∧ functions &&& GadgetFunction.ADB ≠ 0 then
    if vendorPropOf env ≠ "" then
      match addFunctionsFromPropString env (overrideStr env) false st with
      | (st1, true) =>
        match lookupAndSetVidPid env (overrideStr env) st1 with
        | (st2, true) => (st2, true)
        | (st2, false) => tryDefault env mtype (unlinkAll st2)
      | (st1, false) => tryDefault env mtype (unlinkAll st1)
    else tryDefault env mtype st
  else (st, true)

/-- The `enable_adb` label: when ADB is requested, set `ffsEnabled` and link
the dedicated ffs.adb function last (`addAdb`). -/
def enableAdb (env : Env) (functions : Nat) (st : LinkSt) : LinkSt × Bool :=
  if functions &&& GadgetFunction.ADB ≠ 0 then
    linkOne env "adb" "ffs.adb" { st with ffsEnabled := true }
  else (st, true)

/-- The whole linking phase of `setupFunctions` (lines 384-461): RNDIS /
generic branch, the adb-only override/default block, then `enable_adb`. -/
def setupLink (env : Env) (functions : Nat) (mtype : Mdm) (st : LinkSt) :
    LinkSt × Bool :=
  andThen (branch1 env functions mtype st) fun st1 =>
    andThen (overrideBlock env functions mtype st1) fun st2 =>
      enableAdb env functions st2

/-- Appending one `setCurrentUsbFunctionsCb` invocation to the ghost log. -/
def pushCb (st : GState) (functions : Nat) (s : UStatus) : GState :=
  { st with cbResults := st.cbResults ++ [(functions, s)] }

/-- Tail of `setupFunctions` (lines 463-492): immediate pull-up when no ffs
function is present, else start the FFS monitor, wait for pull-up up to the
timeout when a callback is present, and deliver the result.  When the monitor
signals within the timeout the registered callback has set the applied flag. -/
def setupFinish (env : Env) (functions : Nat) (hasCb : Bool) (st : GState) :
    GState × UStatus :=
  if st.link.ffsEnabled = false then
    if env.writePullupOk then
      let st1 := { st with pulledUp := true, applied := true }
      (if hasCb then pushCb st1 functions UStatus.SUCCESS else st1,
       UStatus.SUCCESS)
    else (st, UStatus.ERROR)
  else
    let st1 := { st with monitorStarted := true }
    if hasCb then
      let ok := env.waitForPullUpResult
      let st2 := if ok then { st1 with applied := true } else st1
      (pushCb st2 functions (if ok then UStatus.SUCCESS else UStatus.ERROR),
       UStatus.SUCCESS)
    else (st1, UStatus.SUCCESS)

/-- Source `setupFunctions(functions, callback, timeout)`.  The local `i` and
`ffsEnabled` are reset on entry; failure of any linking step returns ERROR
with the links made so far left in place. -/
def setupFunctions (env : Env) (functions : Nat) (hasCb : Bool)
    (st : GState) : GState × UStatus :=
  let gadgetName := getProp env.usbController ""
  let ls0 : LinkSt := { st.link with nextIdx := 0, ffsEnabled := false }
  if gadgetName = "" then ({ st with link := ls0 }, UStatus.ERROR)
  else
    let r := setupLink env functions (getModemType env) ls0
    if r.2 then setupFinish env functions hasCb { st with link := r.1 }
    else ({ st with link := r.1 }, UStatus.ERROR)

/-- Source `tearDownGadget()`: it calls `resetGadget` (pull-down, clear VID/PID, unlink all
functions) and stop the FFS monitor; on `resetGadget` failure nothing further
happens and ERROR is returned. -/
def tearDownGadget (env : Env) (st : GState) : GState × Bool :=
  if env.resetOk then
    ({ st with
        link := { st.link with linked := [], vidpid := none },
        pulledUp := false,
        monitorStarted := false }, true)
  else (st, false)

/-- The prologue of `setCurrentUsbFunctions`: store the requested bitmask and
clear the applied flag before anything else. -/
def setCurrentPrologue (functions : Nat) (st : GState) : GState :=
  { st with currentFunctions := functions, applied := false }

/-- Error epilogue of `setCurrentUsbFunctions`: deliver the failure status to
the callback when present. -/
def errorOut (st : GState) (functions : Nat) (hasCb : Bool) (s : UStatus) :
    GState × UStatus :=
  (if hasCb then pushCb st functions s else st, s)

/-- Source `setCurrentUsbFunctions(functions, callback, timeout)`: prologue,
teardown, disconnect wait, the NONE shortcut, `validateAndSetVidPid` and
`setupFunctions`, with the error path delivering the failing status.  The
returned status is the overall cycle outcome (the value a failing path hands
to the callback; SUCCESS otherwise). -/
def setCurrentUsbFunctions (env : Env) (functions : Nat) (hasCb : Bool)
    (st : GState) : GState × UStatus :=
  let st0 := setCurrentPrologue functions st
  let td := tearDownGadget env st0
  if td.2 = false then errorOut td.1 functions hasCb UStatus.ERROR
  else if functions = GadgetFunction.NONE then
    (if hasCb then pushCb td.1 functions UStatus.SUCCESS else td.1,
     UStatus.SUCCESS)
  else
    let v := validateAndSetVidPid env functions td.1.link
    if v.2 = UStatus.SUCCESS then
      let r := setupFunctions env functions hasCb { td.1 with link := v.1 }
      if r.2 = UStatus.SUCCESS then (r.1, UStatus.SUCCESS)
      else errorOut r.1 functions hasCb UStatus.ERROR
    else errorOut { td.1 with link := v.1 } functions hasCb v.2

/-- Source `getCurrentUsbFunctions`: report the stored bitmask and whether it is
applied. -/
def getCurrentUsbFunctions (st : GState) : Nat × UStatus :=
  (st.currentFunctions,
   if st.applied then UStatus.FUNCTIONS_APPLIED else UStatus.FUNCTIONS_NOT_APPLIED)

/-- An asynchronous FFS-monitor notification arriving after the cycle: the
registered callback writes only the shared applied flag. -/
def monitorSignal (st : GState) (v : Bool) : GState :=
  if st.monitorStarted then { st with applied := v } else st

/-- The node a supported token resolves to (only meaningful when the token is
a key of `supported_funcs`). -/
def nodeOf (env : Env) (t : String) : String := (supported_funcs env t).getD ""

/-- The link entries produced by a successful `addFunctionsFromPropString`
run over an already-filtered token list, starting at index `k`. -/
def linkEntries (env : Env) : Nat → List String → List LinkEntry
  | _, [] => []
  | k, t :: rest => ⟨t, nodeOf env t, k⟩ :: linkEntries env (k + 1) rest

/-- No entry of the list was linked for the "adb" token. -/
def adbFreeL (l : List LinkEntry) : Prop := ∀ e ∈ l, e.tok ≠ "adb"

/-- A baseline concrete environment for witnesses: controller named, no
properties set, no esoc directory (INTERNAL topology), all collaborator
primitives succeeding, generic branch linking nothing. -/
def envBase : Env := {
  usbController := "a600000.dwc3"
  vendorUsb := ""
  persistVendorUsb := ""
  diagFunc := ""
  rndisFunc := ""
  rmnetFunc := ""
  rmnetInst := ""
  dplInst := ""
  qdssInst := ""
  esocDir := none
  socMachine := none
  linkOk := fun _ _ => true
  setVidPidOk := fun _ _ => true
  resetOk := true
  writePullupOk := true
  waitForPullUpResult := true
  genericLinks := fun _ => []
  genericFfs := fun _ => false
  genericOk := fun _ => true }

/-- A baseline concrete start state: nothing linked, nothing applied. -/
def gs0 : GState := {
  link := { linked := [], nextIdx := 0, ffsEnabled := false, vidpid := none, vidpidLog := [] }
  pulledUp := false
  applied := false
  currentFunctions := 0
  monitorStarted := false
  cbResults := [] }

/-- envBase with linkFunction failing exactly on the "qdss.qdss" node. -/
def envNoQdss : Env := { envBase with linkOk := fun n _ => decide (n ≠ "qdss.qdss") }

/-- envBase with resetGadget failing (teardown failure). -/
def envReset0 : Env := { envBase with resetOk := false }

/-- envBase with a vendor override string containing the unsupported token
"foo". -/
def envOvrBad : Env := { envBase with vendorUsb := "diag,foo" }

/-- envBase with the FFS monitor never signalling within the timeout. -/
def envTimeout : Env := { envBase with waitForPullUpResult := false }

/-! ### Structural lemmas about the linking primitives -/

lemma andThen_fst (r : LinkSt × Bool) (f : LinkSt → LinkSt × Bool) :
    (andThen r f).1 = if r.2 then (f r.1).1 else r.1 := by
  rcases r with ⟨st, b⟩; cases b <;> rfl

lemma andThen_snd (r : LinkSt × Bool) (f : LinkSt → LinkSt × Bool) :
    (andThen r f).2 = (r.2 && (f r.1).2) := by
  rcases r with ⟨st, b⟩; cases b <;> simp [andThen]

lemma lookupAndSetVidPid_linked (env : Env) (prop : String) (st : LinkSt) :
    (lookupAndSetVidPid env prop st).1.linked = st.linked ∧
    (lookupAndSetVidPid env prop st).1.nextIdx = st.nextIdx ∧
    (lookupAndSetVidPid env prop st).1.ffsEnabled = st.ffsEnabled := by
  unfold lookupAndSetVidPid setVidPidM
  cases supported_compositions.lookup prop with
  | none => exact ⟨rfl, rfl, rfl⟩
  | some vp =>
    rcases vp with ⟨vid, pid⟩
    dsimp only
    by_cases h : env.setVidPidOk vid pid = true
    · rw [if_pos h]
      exact ⟨rfl, rfl, rfl⟩
    · rw [if_neg h]
      exact ⟨rfl, rfl, rfl⟩

lemma addFuncTokens_preserve (env : Env) (adb : Bool) :
    ∀ (toks : List String) (st : LinkSt),
      ((addFuncTokens env adb toks st).1.ffsEnabled = st.ffsEnabled) ∧
      ((addFuncTokens env adb toks st).1.vidpid = st.vidpid) ∧
      ((addFuncTokens env adb toks st).1.vidpidLog = st.vidpidLog)
  | [], _ => ⟨rfl, rfl, rfl⟩
  | tok :: rest, st => by
    unfold addFuncTokens
    by_cases hskip : adb = false ∧ tok = "adb"
    · rw [if_pos hskip]
      exact addFuncTokens_preserve env adb rest st
    · rw [if_neg hskip]
      cases hsf : supported_funcs env tok with
      | none => exact ⟨rfl, rfl, rfl⟩
      | some node =>
        dsimp only
        by_cases hlk : env.linkOk node st.nextIdx = true
        · rw [if_pos hlk]
          exact addFuncTokens_preserve env adb rest _
        · rw [if_neg hlk]
          exact ⟨rfl, rfl, rfl⟩

lemma addFuncTokens_adbFree (env : Env) :
    ∀ (toks : List String) (st : LinkSt),
      ∃ new, (addFuncTokens env false toks st).1.linked = st.linked ++ new ∧
        ∀ e ∈ new, e.tok ≠ "adb"
  | [], st => by
    refine ⟨[], ?_, ?_⟩
    · simp [addFuncTokens]
    · intro e he
      simp at he
  | tok :: rest, st => by
    unfold addFuncTokens
    by_cases hskip : (false = false ∧ tok = "adb")
    · rw [if_pos hskip]
      exact addFuncTokens_adbFree env rest st
    · rw [if_neg hskip]
      have htok : tok ≠ "adb" := fun h => hskip ⟨rfl, h⟩
      cases hsf : supported_funcs env tok with
      | none =>
        refine ⟨[], by simp, ?_⟩
        intro e he
        simp at he
      | some node =>
        dsimp only
        by_cases hlk : env.linkOk node st.nextIdx = true
        · rw [if_pos hlk]
          obtain ⟨new, hnew, hfree⟩ := addFuncTokens_adbFree env rest
            { st with
                linked := st.linked ++ [⟨tok, node, st.nextIdx⟩],
                nextIdx := st.nextIdx + 1 }
          refine ⟨⟨tok, node, st.nextIdx⟩ :: new, ?_, ?_⟩
          · rw [hnew]; simp
          · intro e he
            rcases List.mem_cons.mp he with rfl | he
            · exact htok
            · exact hfree e he
        · rw [if_neg hlk]
          refine ⟨[], by simp, ?_⟩
          intro e he
          simp at he

lemma adbFree_of_append {l : List LinkEntry} {new : List LinkEntry}
    (hl : adbFreeL l) (hnew : ∀ e ∈ new, e.tok ≠ "adb") :
    adbFreeL (l ++ new) := by
  intro e he
  rcases List.mem_append.mp he with h | h
  · exact hl e h
  · exact hnew e h

lemma addFuncTokens_adbFree' (env : Env) (toks : List String) (st : LinkSt)
    (h : adbFreeL st.linked) :
    adbFreeL (addFuncTokens env false toks st).1.linked := by
  obtain ⟨new, hnew, hfree⟩ := addFuncTokens_adbFree env toks st
  rw [hnew]
  exact adbFree_of_append h hfree

lemma mem_indexFrom (e : LinkEntry) :
    ∀ (k : Nat) (l : List (String × String)), e ∈ indexFrom k l →
      ∃ p ∈ l, e.tok = p.1
  | _, [], h => by simp [indexFrom] at h
  | k, p :: rest, h => by
    unfold indexFrom at h
    rcases List.mem_cons.mp h with rfl | h
    · exact ⟨p, List.mem_cons_self p rest, rfl⟩
    · obtain ⟨q, hq, he⟩ := mem_indexFrom e (k + 1) rest h
      exact ⟨q, List.mem_cons_of_mem p hq, he⟩

lemma addFuncTokens_run (env : Env) (hl : ∀ n i, env.linkOk n i = true) :
    ∀ (toks : List String) (st : LinkSt),
      (∀ t ∈ toks, t ≠ "adb" → (supported_funcs env t).isSome) →
      addFuncTokens env false toks st =
        ({ st with
            linked := st.linked ++
              linkEntries env st.nextIdx (toks.filter fun t => t ≠ "adb"),
            nextIdx := st.nextIdx + (toks.filter fun t => t ≠ "adb").length },
         true)
  | [], st, _ => by
    simp [addFuncTokens, linkEntries]
  | tok :: rest, st, hsup => by
    unfold addFuncTokens
    by_cases htok : tok = "adb"
    · rw [if_pos ⟨rfl, htok⟩]
      rw [addFuncTokens_run env hl rest st
        (fun t ht h => hsup t (List.mem_cons_of_mem tok ht) h)]
      simp [List.filter_cons, htok]
    · rw [if_neg (fun hc => htok hc.2)]
      have hs : (supported_funcs env tok).isSome :=
        hsup tok (List.mem_cons_self tok rest) htok
      obtain ⟨node, hnode⟩ := Option.isSome_iff_exists.mp hs
      rw [hnode]
      dsimp only
      rw [if_pos (hl node st.nextIdx)]
      rw [addFuncTokens_run env hl rest _
        (fun t ht h => hsup t (List.mem_cons_of_mem tok ht) h)]
      have hfc : (tok :: rest).filter (fun t => t ≠ "adb")
          = tok :: rest.filter (fun t => t ≠ "adb") := by
        simp [List.filter_cons, htok]
      rw [hfc]
      simp only [linkEntries, nodeOf, hnode, Option.getD_some, List.length_cons,
        Prod.mk.injEq, LinkSt.mk.injEq, and_true, true_and]
      refine ⟨?_, ?_⟩
      · simp [List.append_assoc]
      · omega

lemma addFuncTokens_fail (env : Env) (hl : ∀ n i, env.linkOk n i = true) :
    ∀ (toks : List String) (st : LinkSt) (t : String),
      t ∈ toks → t ≠ "adb" → (supported_funcs env t).isSome = false →
      (addFuncTokens env false toks st).2 = false
  | [], _, t, ht, _, _ => absurd ht (List.not_mem_nil t)
  | tok :: rest, st, t, ht, htadb, hns => by
    unfold addFuncTokens
    by_cases htok : tok = "adb"
    · rw [if_pos ⟨rfl, htok⟩]
      have hmem : t ∈ rest := by
        rcases List.mem_cons.mp ht with h | h
        · exact absurd (h.trans htok) htadb
        · exact h
      exact addFuncTokens_fail env hl rest st t hmem htadb hns
    · rw [if_neg (fun hc => htok hc.2)]
      by_cases hteq : t = tok
      · subst hteq
        cases ho : supported_funcs env t with
        | none => rfl
        | some node =>
          rw [ho] at hns
          simp at hns
      · have hmem : t ∈ rest := by
          rcases List.mem_cons.mp ht with h | h
          · exact absurd h hteq
          · exact h
        cases ho : supported_funcs env tok with
        | none => rfl
        | some node =>
          dsimp only
          rw [if_pos (hl node st.nextIdx)]
          exact addFuncTokens_fail env hl rest _ t hmem htadb hns

lemma linkOne_adbFree (env : Env) (tok node : String) (st : LinkSt)
    (htok : tok ≠ "adb") (h : adbFreeL st.linked) :
    adbFreeL (linkOne env tok node st).1.linked := by
  unfold linkOne
  split
  · intro e he
    rcases List.mem_append.mp he with h1 | h1
    · exact h e h1
    · rcases List.mem_singleton.mp h1 with rfl
      exact htok
  · exact h

lemma addGeneric_adbFree (env : Env) (fns : Nat) (st : LinkSt)
    (hg : ∀ p ∈ env.genericLinks fns, p.1 ≠ "adb")
    (h : adbFreeL st.linked) :
    adbFreeL (addGeneric env fns st).1.linked := by
  intro e he
  unfold addGeneric at he
  rcases List.mem_append.mp he with h1 | h1
  · exact h e h1
  · obtain ⟨p, hp, htk⟩ := mem_indexFrom e st.nextIdx (env.genericLinks fns) h1
    rw [htk]
    exact hg p hp

lemma branch1_adbFree (env : Env) (fns : Nat) (mtype : Mdm) (st : LinkSt)
    (hg : ∀ p ∈ env.genericLinks fns, p.1 ≠ "adb")
    (h : adbFreeL st.linked) :
    adbFreeL (branch1 env fns mtype st).1.linked := by
  unfold branch1
  by_cases h32 : fns &&& GadgetFunction.RNDIS ≠ 0
  · rw [if_pos h32]
    by_cases h1 : fns &&& GadgetFunction.ADB ≠ 0
    · rw [if_pos h1]
      rw [andThen_fst]
      split
      · rw [(lookupAndSetVidPid_linked env (rndisAdbComp mtype) _).1]
        exact addFuncTokens_adbFree' env _ st h
      · exact addFuncTokens_adbFree' env _ st h
    · rw [if_neg h1]
      exact linkOne_adbFree env "rndis" (rndisFuncname env) st (by decide) h
  · rw [if_neg h32]
    exact addGeneric_adbFree env fns st hg h

lemma tryDefault_adbFree (env : Env) (mtype : Mdm) (st : LinkSt)
    (h : adbFreeL st.linked) :
    adbFreeL (tryDefault env mtype st).1.linked := by
  unfold tryDefault
  rw [andThen_fst]
  split
  · rw [(lookupAndSetVidPid_linked env (adbDefaultComp mtype) _).1]
    exact addFuncTokens_adbFree' env _ st h
  · exact addFuncTokens_adbFree' env _ st h

lemma unlinkAll_adbFree (st : LinkSt) : adbFreeL (unlinkAll st).linked := by
  intro e he
  simp [unlinkAll] at he

lemma overrideBlock_adbFree (env : Env) (fns : Nat) (mtype : Mdm) (st : LinkSt)
    (h : adbFreeL st.linked) :
    adbFreeL (overrideBlock env fns mtype st).1.linked := by
  unfold overrideBlock
  split
  · split
    · rcases hr : addFunctionsFromPropString env (overrideStr env) false st with ⟨st1, b⟩
      cases b
      · dsimp only
        exact tryDefault_adbFree env mtype _ (unlinkAll_adbFree st1)
      · dsimp only
        rcases hr2 : lookupAndSetVidPid env (overrideStr env) st1 with ⟨st2, b2⟩
        cases b2
        · dsimp only
          exact tryDefault_adbFree env mtype _ (unlinkAll_adbFree st2)
        · dsimp only
          have h1 : adbFreeL st1.linked := by
            have := addFuncTokens_adbFree' env (splitComma (overrideStr env)) st h
            rw [show (addFuncTokens env false (splitComma (overrideStr env)) st).1 = st1 from
              congrArg Prod.fst hr] at this
            exact this
          have h2 : st2.linked = st1.linked := by
            have := (lookupAndSetVidPid_linked env (overrideStr env) st1).1
            rw [hr2] at this
            exact this
          intro e he
          rw [h2] at he
          exact h1 e he
    · exact tryDefault_adbFree env mtype st h
  · exact h

lemma enableAdb_success (env : Env) (fns : Nat) (st st2 : LinkSt)
    (hA : fns &&& GadgetFunction.ADB ≠ 0)
    (h : enableAdb env fns st = (st2, true)) :
    st2.linked = st.linked ++ [⟨"adb", "ffs.adb", st.nextIdx⟩] ∧
    st2.ffsEnabled = true := by
  unfold enableAdb at h
  rw [if_pos hA] at h
  unfold linkOne at h
  split at h
  · injection h with h1 h2
    rw [← h1]
    exact ⟨rfl, rfl⟩
  · injection h with h1 h2
    exact Bool.noConfusion h2

lemma setupLink_adb_last (env : Env) (fns : Nat) (mtype : Mdm) (st : LinkSt)
    (hA : fns &&& GadgetFunction.ADB ≠ 0)
    (hg : ∀ p ∈ env.genericLinks fns, p.1 ≠ "adb")
    (hfree : adbFreeL st.linked)
    (hsucc : (setupLink env fns mtype st).2 = true) :
    ∃ pre k, (setupLink env fns mtype st).1.linked = pre ++ [⟨"adb", "ffs.adb", k⟩] ∧
      adbFreeL pre := by
  unfold setupLink at hsucc ⊢
  rw [andThen_snd] at hsucc
  simp only [Bool.and_eq_true] at hsucc
  obtain ⟨hb, hrest⟩ := hsucc
  rw [andThen_fst, if_pos hb]
  rw [andThen_snd] at hrest
  simp only [Bool.and_eq_true] at hrest
  obtain ⟨ho, he⟩ := hrest
  rw [andThen_fst, if_pos ho]
  have hfree2 : adbFreeL (overrideBlock env fns mtype (branch1 env fns mtype st).1).1.linked :=
    overrideBlock_adbFree env fns mtype _ (branch1_adbFree env fns mtype st hg hfree)
  rcases h3 : enableAdb env fns (overrideBlock env fns mtype (branch1 env fns mtype st).1).1
    with ⟨st3, b3⟩
  rw [h3] at he
  cases b3
  · exact Bool.noConfusion he
  · obtain ⟨hlk, _⟩ := enableAdb_success env fns _ st3 hA h3
    exact ⟨_, _, hlk, hfree2⟩

lemma setupFinish_parts (env : Env) (fns : Nat) (hasCb : Bool) (st : GState) :
    (setupFinish env fns hasCb st).1.link = st.link ∧
    (setupFinish env fns hasCb st).1.currentFunctions = st.currentFunctions := by
  unfold setupFinish pushCb
  dsimp only
  split_ifs <;> exact ⟨rfl, rfl⟩

lemma setupFinish_fail (env : Env) (fns : Nat) (hasCb : Bool) (st : GState)
    (h : (setupFinish env fns hasCb st).2 ≠ UStatus.SUCCESS) :
    (setupFinish env fns hasCb st).1 = st := by
  unfold setupFinish pushCb at h ⊢
  dsimp only at h ⊢
  split_ifs at h ⊢ <;> first | rfl | exact absurd rfl h

lemma setupFunctions_current (env : Env) (fns : Nat) (hasCb : Bool) (st : GState) :
    (setupFunctions env fns hasCb st).1.currentFunctions = st.currentFunctions := by
  unfold setupFunctions
  dsimp only
  split_ifs with h1 h2
  · rfl
  · exact (setupFinish_parts env fns hasCb _).2
  · rfl

lemma setupFunctions_fail_flags (env : Env) (fns : Nat) (hasCb : Bool) (st : GState)
    (h : (setupFunctions env fns hasCb st).2 ≠ UStatus.SUCCESS) :
    (setupFunctions env fns hasCb st).1.applied = st.applied ∧
    (setupFunctions env fns hasCb st).1.pulledUp = st.pulledUp ∧
    (setupFunctions env fns hasCb st).1.monitorStarted = st.monitorStarted := by
  unfold setupFunctions at h ⊢
  dsimp only at h ⊢
  split_ifs at h ⊢ with h1 h2
  · exact ⟨rfl, rfl, rfl⟩
  · have hf := setupFinish_fail env fns hasCb _ h
    rw [hf]
    exact ⟨rfl, rfl, rfl⟩
  · exact ⟨rfl, rfl, rfl⟩

lemma setupFinish_monitor (env : Env) (fns : Nat) (st : GState)
    (hmon : st.monitorStarted = false)
    (hwait : env.waitForPullUpResult = false)
    (hms : (setupFinish env fns true st).1.monitorStarted = true) :
    (setupFinish env fns true st).1.cbResults = st.cbResults ++ [(fns, UStatus.ERROR)] ∧
    (setupFinish env fns true st).1.applied = st.applied ∧
    (setupFinish env fns true st).2 = UStatus.SUCCESS := by
  by_cases hf : st.link.ffsEnabled = false
  · exfalso
    unfold setupFinish pushCb at hms
    rw [if_pos hf] at hms
    by_cases hw : env.writePullupOk = true
    · rw [if_pos hw] at hms
      simp [hmon] at hms
    · rw [if_neg hw] at hms
      simp [hmon] at hms
  · unfold setupFinish pushCb
    rw [if_neg hf]
    simp [hwait]

lemma pushCb_current (st : GState) (fns : Nat) (s : UStatus) :
    (pushCb st fns s).currentFunctions = st.currentFunctions := rfl

lemma pushCb_applied (st : GState) (fns : Nat) (s : UStatus) :
    (pushCb st fns s).applied = st.applied := rfl

lemma pushCb_pulledUp (st : GState) (fns : Nat) (s : UStatus) :
    (pushCb st fns s).pulledUp = st.pulledUp := rfl

lemma errorOut_current (st : GState) (fns : Nat) (hasCb : Bool) (s : UStatus) :
    (errorOut st fns hasCb s).1.currentFunctions = st.currentFunctions := by
  unfold errorOut
  split_ifs <;> rfl

lemma errorOut_applied (st : GState) (fns : Nat) (hasCb : Bool) (s : UStatus) :
    (errorOut st fns hasCb s).1.applied = st.applied := by
  unfold errorOut
  split_ifs <;> rfl

lemma errorOut_pulledUp (st : GState) (fns : Nat) (hasCb : Bool) (s : UStatus) :
    (errorOut st fns hasCb s).1.pulledUp = st.pulledUp := by
  unfold errorOut
  split_ifs <;> rfl

lemma tearDownGadget_current (env : Env) (st : GState) :
    (tearDownGadget env st).1.currentFunctions = st.currentFunctions := by
  unfold tearDownGadget
  split_ifs <;> rfl

lemma tearDownGadget_applied (env : Env) (st : GState) :
    (tearDownGadget env st).1.applied = st.applied := by
  unfold tearDownGadget
  split_ifs <;> rfl

lemma tearDownGadget_ok (env : Env) (st : GState) (h : env.resetOk = true) :
    tearDownGadget env st =
      ({ st with
          link := { st.link with linked := [], vidpid := none },
          pulledUp := false,
          monitorStarted := false }, true) := by
  unfold tearDownGadget
  rw [if_pos h]

/-! ### Claim theorems -/

/-- Claim C4 counterexample: a platform with an external-modem esoc entry
("MDM9655") and machine identity "SDA845" (which contains the "SDA" marker)
is classified EXTERNAL, not NONE: the marker does not override an External
finding, contrary to the claim. -/
theorem claim_C4_counterexample :
    containsSub "SDA845" "SDA" = true ∧
    getModemType { envBase with
      esocDir := some [⟨"esoc0", some "MDM9655"⟩],
      socMachine := some "SDA845" } = Mdm.EXTERNAL ∧
    Mdm.EXTERNAL ≠ Mdm.NONE := by
  refine ⟨by decide, by decide, by decide⟩

/-- Claim C4 (amended): when the machine-identity string contains the "SDA"
marker or ends with the 'P' marker character, the classifier returns NONE
only when the esoc scan found no external modem; an EXTERNAL step-1 finding
is kept (the marker short-circuits refinement but overrides only the
tentative INTERNAL default, not External). -/
theorem claim_C4 (env : Env) (entries : List EsocEntry) (soc : String)
    (hdir : env.esocDir = some entries)
    (hsoc : env.socMachine = some soc)
    (hmark : (containsSub soc "SDA" || endsWithPMarker soc) = true) :
    getModemType env =
      (if esocExternal entries then Mdm.EXTERNAL else Mdm.NONE) := by
  unfold getModemType
  rw [hdir]
  dsimp only
  rw [hsoc]
  dsimp only
  rw [if_pos hmark]
  by_cases he : esocExternal entries = true
  · simp [he]
  · simp [he]

/-- Claim C4 witness: a modem-less platform (esoc entry naming no MDM/SDX)
with machine identity "SDA845" is classified NONE via the amended rule. -/
theorem claim_C4_witness :
    (containsSub "SDA845" "SDA" || endsWithPMarker "SDA845") = true ∧
    getModemType { envBase with
      esocDir := some [⟨"esoc0", some "QCS405"⟩],
      socMachine := some "SDA845" } =
      (if esocExternal [⟨"esoc0", some "QCS405"⟩] then Mdm.EXTERNAL else Mdm.NONE) :=
  ⟨by decide,
   claim_C4 { envBase with
      esocDir := some [⟨"esoc0", some "QCS405"⟩],
      socMachine := some "SDA845" } [⟨"esoc0", some "QCS405"⟩] "SDA845" rfl rfl
     (by decide)⟩

lemma cycle_fail_report (fns : Nat) (hasCb : Bool) (s : UStatus) (X : GState)
    (happ : X.applied = false) (hcur : X.currentFunctions = fns) :
    getCurrentUsbFunctions (errorOut X fns hasCb s).1 =
      (fns, UStatus.FUNCTIONS_NOT_APPLIED) := by
  unfold getCurrentUsbFunctions
  rw [errorOut_applied, errorOut_current, happ, hcur]
  simp

/-- Claim C10: the prologue of every setCurrentUsbFunctions cycle stores the
requested bitmask and clears the applied flag before teardown, so a status
query during the cycle reports (functions, FUNCTIONS_NOT_APPLIED); the
stored bitmask always equals the most recent request afterwards, and after a
failed cycle the query still reports (functions, FUNCTIONS_NOT_APPLIED). -/
theorem claim_C10 (env : Env) (fns : Nat) (hasCb : Bool) (st : GState) :
    getCurrentUsbFunctions (setCurrentPrologue fns st) =
      (fns, UStatus.FUNCTIONS_NOT_APPLIED) ∧
    (setCurrentUsbFunctions env fns hasCb st).1.currentFunctions = fns ∧
    ((setCurrentUsbFunctions env fns hasCb st).2 ≠ UStatus.SUCCESS →
      getCurrentUsbFunctions (setCurrentUsbFunctions env fns hasCb st).1 =
        (fns, UStatus.FUNCTIONS_NOT_APPLIED)) := by
  refine ⟨rfl, ?_, ?_⟩
  · unfold setCurrentUsbFunctions
    dsimp only
    split_ifs <;>
      simp [errorOut_current, pushCb_current, tearDownGadget_current,
        setupFunctions_current, setCurrentPrologue]
  · intro hfail
    unfold setCurrentUsbFunctions at hfail ⊢
    dsimp only at hfail ⊢
    by_cases h1 : (tearDownGadget env (setCurrentPrologue fns st)).2 = false
    · rw [if_pos h1] at hfail ⊢
      refine cycle_fail_report fns hasCb _ _ ?_ ?_
      · rw [tearDownGadget_applied]
        rfl
      · rw [tearDownGadget_current]
        rfl
    · rw [if_neg h1] at hfail ⊢
      by_cases h2 : fns = GadgetFunction.NONE
      · rw [if_pos h2] at hfail
        exact absurd rfl hfail
      · rw [if_neg h2] at hfail ⊢
        by_cases h3 : (validateAndSetVidPid env fns
            (tearDownGadget env (setCurrentPrologue fns st)).1.link).2 = UStatus.SUCCESS
        · rw [if_pos h3] at hfail ⊢
          by_cases h4 : (setupFunctions env fns hasCb
              { (tearDownGadget env (setCurrentPrologue fns st)).1 with
                link := (validateAndSetVidPid env fns
                  (tearDownGadget env (setCurrentPrologue fns st)).1.link).1 }).2 =
              UStatus.SUCCESS
          · rw [if_pos h4] at hfail
            exact absurd rfl hfail
          · rw [if_neg h4] at hfail ⊢
            refine cycle_fail_report fns hasCb _ _ ?_ ?_
            · refine ((setupFunctions_fail_flags env fns hasCb _ h4).1).trans ?_
              show (tearDownGadget env (setCurrentPrologue fns st)).1.applied = false
              rw [tearDownGadget_applied]
              rfl
            · refine (setupFunctions_current env fns hasCb _).trans ?_
              show (tearDownGadget env (setCurrentPrologue fns st)).1.currentFunctions = fns
              rw [tearDownGadget_current]
              rfl
        · rw [if_neg h3] at hfail ⊢
          refine cycle_fail_report fns hasCb _ _ ?_ ?_
          · show (tearDownGadget env (setCurrentPrologue fns st)).1.applied = false
            rw [tearDownGadget_applied]
            rfl
          · show (tearDownGadget env (setCurrentPrologue fns st)).1.currentFunctions = fns
            rw [tearDownGadget_current]
            rfl

/-- Claim C10 witness: with resetGadget failing, a cycle for bitmask 5 fails
and the status query afterwards reports (5, FUNCTIONS_NOT_APPLIED). -/
theorem claim_C10_witness :
    getCurrentUsbFunctions (setCurrentUsbFunctions envReset0 5 true gs0).1 =
      (5, UStatus.FUNCTIONS_NOT_APPLIED) :=
  (claim_C10 envReset0 5 true gs0).2.2 (by decide)

/-- Claim C3 counterexample: for request Rndis|Adb = 33 on an INTERNAL
topology with linkFunction failing at the qdss node, the cycle fails but the
rndis and diag functions stay linked — the gadget is not fully torn down on
this failure path, contrary to the claim. -/
theorem claim_C3_counterexample :
    (setCurrentUsbFunctions envNoQdss 33 true gs0).2 = UStatus.ERROR ∧
    (setCurrentUsbFunctions envNoQdss 33 true gs0).1.link.linked.map LinkEntry.node =
      ["rndis", "diag.diag"] := by
  refine ⟨by decide, by decide⟩

/-- Claim C3 (amended): on every failure path of a cycle whose teardown
succeeded, the cycle reports failure with the applied flag false and the
pull-up deasserted (the gadget stays disabled), but functions linked before
the failure point are not unlinked. -/
theorem claim_C3 (env : Env) (fns : Nat) (hasCb : Bool) (st : GState)
    (hreset : env.resetOk = true)
    (hfail : (setCurrentUsbFunctions env fns hasCb st).2 ≠ UStatus.SUCCESS) :
    (setCurrentUsbFunctions env fns hasCb st).1.applied = false ∧
    (setCurrentUsbFunctions env fns hasCb st).1.pulledUp = false := by
  have htd2 : (tearDownGadget env (setCurrentPrologue fns st)).2 = true := by
    rw [tearDownGadget_ok env _ hreset]
  have htdp : (tearDownGadget env (setCurrentPrologue fns st)).1.pulledUp = false := by
    rw [tearDownGadget_ok env _ hreset]
  have htda : (tearDownGadget env (setCurrentPrologue fns st)).1.applied = false := by
    rw [tearDownGadget_applied]
    rfl
  unfold setCurrentUsbFunctions at hfail ⊢
  dsimp only at hfail ⊢
  rw [htd2] at hfail ⊢
  rw [if_neg (by decide : ¬((true : Bool) = false))] at hfail ⊢
  by_cases h2 : fns = GadgetFunction.NONE
  · rw [if_pos h2] at hfail
    exact absurd rfl hfail
  · rw [if_neg h2] at hfail ⊢
    by_cases h3 : (validateAndSetVidPid env fns
        (tearDownGadget env (setCurrentPrologue fns st)).1.link).2 = UStatus.SUCCESS
    · rw [if_pos h3] at hfail ⊢
      by_cases h4 : (setupFunctions env fns hasCb
          { (tearDownGadget env (setCurrentPrologue fns st)).1 with
            link := (validateAndSetVidPid env fns
              (tearDownGadget env (setCurrentPrologue fns st)).1.link).1 }).2 =
          UStatus.SUCCESS
      · rw [if_pos h4] at hfail
        exact absurd rfl hfail
      · rw [if_neg h4] at hfail ⊢
        constructor
        · rw [errorOut_applied]
          refine ((setupFunctions_fail_flags env fns hasCb _ h4).1).trans ?_
          exact htda
        · rw [errorOut_pulledUp]
          refine ((setupFunctions_fail_flags env fns hasCb _ h4).2.1).trans ?_
          exact htdp
    · rw [if_neg h3] at hfail ⊢
      constructor
      · rw [errorOut_applied]
        exact htda
      · rw [errorOut_pulledUp]
        exact htdp

/-- Claim C3 witness: the amended statement evaluated on the concrete failing
cycle of the counterexample input (teardown succeeded, link of qdss failed):
applied stays false and the pull-up stays deasserted. -/
theorem claim_C3_witness :
    (setCurrentUsbFunctions envNoQdss 33 true gs0).1.applied = false ∧
    (setCurrentUsbFunctions envNoQdss 33 true gs0).1.pulledUp = false :=
  claim_C3 envNoQdss 33 true gs0 (by decide) (by decide)

/-- Claim C5 counterexample: a NONE request completes with SUCCESS delivered
to the callback, but the applied flag is left false, so a status query
reports FUNCTIONS_NOT_APPLIED — the cycle does not transition to the Applied
state as claimed. -/
theorem claim_C5_counterexample :
    (setCurrentUsbFunctions envBase 0 true { gs0 with applied := true }).2 =
      UStatus.SUCCESS ∧
    (setCurrentUsbFunctions envBase 0 true { gs0 with applied := true }).1.cbResults =
      [(0, UStatus.SUCCESS)] ∧
    (setCurrentUsbFunctions envBase 0 true { gs0 with applied := true }).1.applied = false ∧
    (getCurrentUsbFunctions
      (setCurrentUsbFunctions envBase 0 true { gs0 with applied := true }).1).2 =
      UStatus.FUNCTIONS_NOT_APPLIED := by
  refine ⟨by decide, by decide, by decide, by decide⟩

/-- Claim C5 (amended): when the requested bitmask is NONE and teardown
succeeds, the cycle links zero functions, leaves no VID/PID committed, never
starts the monitor, and reports success to the callback — but the applied
flag remains false (status queries report FUNCTIONS_NOT_APPLIED) rather than
transitioning to an applied state. -/
theorem claim_C5 (env : Env) (st : GState)
    (hreset : env.resetOk = true) :
    (setCurrentUsbFunctions env GadgetFunction.NONE true st).2 = UStatus.SUCCESS ∧
    (setCurrentUsbFunctions env GadgetFunction.NONE true st).1.link.linked = [] ∧
    (setCurrentUsbFunctions env GadgetFunction.NONE true st).1.link.vidpid = none ∧
    (setCurrentUsbFunctions env GadgetFunction.NONE true st).1.monitorStarted = false ∧
    (setCurrentUsbFunctions env GadgetFunction.NONE true st).1.applied = false ∧
    (setCurrentUsbFunctions env GadgetFunction.NONE true st).1.cbResults =
      st.cbResults ++ [(GadgetFunction.NONE, UStatus.SUCCESS)] := by
  unfold setCurrentUsbFunctions
  dsimp only
  rw [tearDownGadget_ok env _ hreset]
  dsimp only
  rw [if_neg (by decide : ¬((true : Bool) = false)), if_pos rfl]
  simp [pushCb, setCurrentPrologue]

/-- Claim C5 witness: the amended statement evaluated at the baseline
environment from an applied state. -/
theorem claim_C5_witness :
    (setCurrentUsbFunctions envBase GadgetFunction.NONE true gs0).2 = UStatus.SUCCESS ∧
    (setCurrentUsbFunctions envBase GadgetFunction.NONE true gs0).1.link.linked = [] ∧
    (setCurrentUsbFunctions envBase GadgetFunction.NONE true gs0).1.link.vidpid = none ∧
    (setCurrentUsbFunctions envBase GadgetFunction.NONE true gs0).1.monitorStarted = false ∧
    (setCurrentUsbFunctions envBase GadgetFunction.NONE true gs0).1.applied = false ∧
    (setCurrentUsbFunctions envBase GadgetFunction.NONE true gs0).1.cbResults =
      gs0.cbResults ++ [(GadgetFunction.NONE, UStatus.SUCCESS)] :=
  claim_C5 envBase gs0 (by decide)

/-- Claim C8: when a cycle enters the monitoring path (monitor started by
this cycle) and the monitor does not signal pull-up within the timeout, the
caller is delivered ERROR as the cycle's result; a pull-up signal arriving
afterwards only updates the shared applied flag and leaves the delivered
callback results unchanged. -/
theorem claim_C8 (env : Env) (fns : Nat) (st : GState)
    (hmon0 : st.monitorStarted = false)
    (hwait : env.waitForPullUpResult = false)
    (hms : (setupFunctions env fns true st).1.monitorStarted = true) :
    (setupFunctions env fns true st).1.cbResults =
      st.cbResults ++ [(fns, UStatus.ERROR)] ∧
    (setupFunctions env fns true st).2 = UStatus.SUCCESS ∧
    ∀ v, (monitorSignal (setupFunctions env fns true st).1 v).cbResults =
        (setupFunctions env fns true st).1.cbResults ∧
      (monitorSignal (setupFunctions env fns true st).1 v).applied = v := by
  unfold setupFunctions at hms ⊢
  dsimp only at hms ⊢
  by_cases hgn : getProp env.usbController "" = ""
  · rw [if_pos hgn] at hms
    simp [hmon0] at hms
  · rw [if_neg hgn] at hms ⊢
    by_cases hr : (setupLink env fns (getModemType env)
        { st.link with nextIdx := 0, ffsEnabled := false }).2 = true
    · rw [if_pos hr] at hms ⊢
      obtain ⟨hcb, hap, hsucc⟩ := setupFinish_monitor env fns
        { st with link := (setupLink env fns (getModemType env)
            { st.link with nextIdx := 0, ffsEnabled := false }).1 }
        hmon0 hwait hms
      refine ⟨hcb, hsucc, ?_⟩
      intro v
      constructor
      · unfold monitorSignal
        rw [if_pos hms]
      · unfold monitorSignal
        rw [if_pos hms]
    · rw [if_neg hr] at hms
      simp [hmon0] at hms

/-- Claim C8 witness: for an ADB-only request with the monitor timing out,
the callback receives ERROR and a later monitor signal sets only the applied
flag. -/
theorem claim_C8_witness :
    (setupFunctions envTimeout 1 true gs0).1.cbResults =
      gs0.cbResults ++ [(1, UStatus.ERROR)] ∧
    (monitorSignal (setupFunctions envTimeout 1 true gs0).1 true).cbResults =
      (setupFunctions envTimeout 1 true gs0).1.cbResults ∧
    (monitorSignal (setupFunctions envTimeout 1 true gs0).1 true).applied = true := by
  obtain ⟨h1, h2, h3⟩ := claim_C8 envTimeout 1 gs0 (by decide) (by decide) (by decide)
  exact ⟨h1, (h3 true).1, (h3 true).2⟩

/-- Claim C1: for every requested bitmask containing Adb for which
setupFunctions succeeds (with the generic collaborator never linking for the
token "adb"), the function linked for the ADB token is the dedicated
"ffs.adb" node, linked exactly once and strictly last — every other linked
entry, including any produced from composition strings textually containing
"adb" (such as the vendor override), carries a different token. -/
theorem claim_C1 (env : Env) (fns : Nat) (hasCb : Bool) (st : GState)
    (hlinked : st.link.linked = [])
    (hg : ∀ p ∈ env.genericLinks fns, p.1 ≠ "adb")
    (hA : fns &&& GadgetFunction.ADB ≠ 0)
    (hsucc : (setupFunctions env fns hasCb st).2 = UStatus.SUCCESS) :
    ∃ pre k, (setupFunctions env fns hasCb st).1.link.linked =
        pre ++ [⟨"adb", "ffs.adb", k⟩] ∧ adbFreeL pre := by
  unfold setupFunctions at hsucc ⊢
  dsimp only at hsucc ⊢
  by_cases hgn : getProp env.usbController "" = ""
  · rw [if_pos hgn] at hsucc
    exact UStatus.noConfusion hsucc
  · rw [if_neg hgn] at hsucc ⊢
    by_cases hr : (setupLink env fns (getModemType env)
        { st.link with nextIdx := 0, ffsEnabled := false }).2 = true
    · rw [if_pos hr] at hsucc ⊢
      obtain ⟨pre, k, hpre, hfree⟩ := setupLink_adb_last env fns (getModemType env)
        { st.link with nextIdx := 0, ffsEnabled := false } hA hg
        (by
          intro e he
          rw [show ({ st.link with nextIdx := 0, ffsEnabled := false } : LinkSt).linked
            = st.link.linked from rfl, hlinked] at he
          exact absurd he (List.not_mem_nil e)) hr
      rw [(setupFinish_parts env fns hasCb _).1]
      exact ⟨pre, k, hpre, hfree⟩
    · rw [if_neg hr] at hsucc
      exact UStatus.noConfusion hsucc

/-- Claim C1 witness: the ADB-only request on the baseline environment links
ffs.adb exactly once and last. -/
theorem claim_C1_witness :
    ∃ pre k, (setupFunctions envBase 1 true gs0).1.link.linked =
        pre ++ [⟨"adb", "ffs.adb", k⟩] ∧ adbFreeL pre :=
  claim_C1 envBase 1 true gs0 rfl (by intro p hp; simp [envBase] at hp)
    (by decide) (by decide)

lemma andThen_true (a : LinkSt) (f : LinkSt → LinkSt × Bool) :
    andThen (a, true) f = f a := rfl

lemma andThen_false (a : LinkSt) (f : LinkSt → LinkSt × Bool) :
    andThen (a, false) f = (a, false) := rfl

lemma errorOut_snd (st : GState) (fns : Nat) (hasCb : Bool) (s : UStatus) :
    (errorOut st fns hasCb s).2 = s := by
  unfold errorOut
  split_ifs <;> rfl

lemma errorOut_link (st : GState) (fns : Nat) (hasCb : Bool) (s : UStatus) :
    (errorOut st fns hasCb s).1.link = st.link := by
  unfold errorOut pushCb
  split_ifs <;> rfl

lemma setupFinish_ffs_success (env : Env) (fns : Nat) (hasCb : Bool) (st : GState)
    (h : st.link.ffsEnabled = true) :
    (setupFinish env fns hasCb st).2 = UStatus.SUCCESS := by
  unfold setupFinish
  rw [if_neg (by simp [h])]
  dsimp only
  split_ifs <;> rfl

lemma setupLink33 (env : Env) (ls : LinkSt)
    (hlink : ∀ n i, env.linkOk n i = true)
    (hvp : ∀ v p, env.setVidPidOk v p = true)
    (hln : ls.nextIdx = 0) (hll : ls.linked = []) :
    setupLink env 33 Mdm.INTERNAL ls =
      ({ ls with
          linked := linkEntries env 0 ["rndis", "diag", "qdss", "serial_cdev", "dpl"]
            ++ [⟨"adb", "ffs.adb", 5⟩],
          nextIdx := 6,
          ffsEnabled := true,
          vidpid := some ("0x05C6", "0x90E9"),
          vidpidLog := ls.vidpidLog ++ [("0x05C6", "0x90E9")] }, true) := by
  unfold setupLink branch1
  rw [if_pos (by decide : (33 : Nat) &&& GadgetFunction.RNDIS ≠ 0),
    if_pos (by decide : (33 : Nat) &&& GadgetFunction.ADB ≠ 0)]
  unfold addFunctionsFromPropString
  have hsp : splitComma (rndisAdbComp Mdm.INTERNAL) =
      ["rndis", "diag", "qdss", "serial_cdev", "dpl", "adb"] := by decide
  rw [hsp]
  rw [addFuncTokens_run env hlink _ ls (by intro t ht _; fin_cases ht <;> rfl)]
  have hfil : (["rndis", "diag", "qdss", "serial_cdev", "dpl", "adb"].filter
      fun t => t ≠ "adb") = ["rndis", "diag", "qdss", "serial_cdev", "dpl"] := by decide
  rw [hfil]
  rw [andThen_true]
  unfold lookupAndSetVidPid
  rw [show supported_compositions.lookup (rndisAdbComp Mdm.INTERNAL) =
    some ("0x05C6", "0x90E9") from by decide]
  dsimp only
  unfold setVidPidM
  rw [hvp "0x05C6" "0x90E9", if_pos rfl]
  rw [andThen_true]
  unfold overrideBlock
  rw [if_neg (by
    intro hc
    rw [hln] at hc
    simp at hc)]
  rw [andThen_true]
  unfold enableAdb
  rw [if_pos (by decide : (33 : Nat) &&& GadgetFunction.ADB ≠ 0)]
  unfold linkOne
  rw [hlink "ffs.adb" _, if_pos rfl]
  rw [hll, hln]
  simp

lemma setup33 (env : Env) (hasCb : Bool) (st : GState)
    (hgn : getProp env.usbController "" ≠ "")
    (hlink : ∀ n i, env.linkOk n i = true)
    (hvp : ∀ v p, env.setVidPidOk v p = true)
    (hmt : getModemType env = Mdm.INTERNAL)
    (hlinked : st.link.linked = []) :
    (setupFunctions env 33 hasCb st).2 = UStatus.SUCCESS ∧
    (setupFunctions env 33 hasCb st).1.link.linked =
      linkEntries env 0 ["rndis", "diag", "qdss", "serial_cdev", "dpl"]
        ++ [⟨"adb", "ffs.adb", 5⟩] ∧
    (setupFunctions env 33 hasCb st).1.link.vidpid = some ("0x05C6", "0x90E9") ∧
    (setupFunctions env 33 hasCb st).1.link.vidpidLog =
      st.link.vidpidLog ++ [("0x05C6", "0x90E9")] := by
  unfold setupFunctions
  dsimp only
  rw [if_neg hgn, hmt]
  rw [setupLink33 env { st.link with nextIdx := 0, ffsEnabled := false } hlink hvp rfl hlinked]
  dsimp only
  rw [if_pos rfl]
  refine ⟨setupFinish_ffs_success env 33 hasCb _ rfl, ?_, ?_, ?_⟩
  · rw [(setupFinish_parts env 33 hasCb _).1]
  · rw [(setupFinish_parts env 33 hasCb _).1]
  · rw [(setupFinish_parts env 33 hasCb _).1]

/-- Claim C7: for requested = Rndis|Adb (= 33) with INTERNAL modem topology
and all collaborator primitives succeeding, the linked composition is, in
order, rndis, diag, qdss, serial_cdev, dpl at indices 0..4 and adb last at
index 5, and the committed VID/PID is the supported_compositions entry for
the exact key "rndis,diag,qdss,serial_cdev,dpl,adb". -/
theorem claim_C7 (env : Env) (hasCb : Bool) (st : GState)
    (hgn : getProp env.usbController "" ≠ "")
    (hlink : ∀ n i, env.linkOk n i = true)
    (hvp : ∀ v p, env.setVidPidOk v p = true)
    (hmt : getModemType env = Mdm.INTERNAL)
    (hlinked : st.link.linked = []) :
    (setupFunctions env 33 hasCb st).2 = UStatus.SUCCESS ∧
    (setupFunctions env 33 hasCb st).1.link.linked.map LinkEntry.tok =
      ["rndis", "diag", "qdss", "serial_cdev", "dpl", "adb"] ∧
    (setupFunctions env 33 hasCb st).1.link.linked.map LinkEntry.idx =
      [0, 1, 2, 3, 4, 5] ∧
    (setupFunctions env 33 hasCb st).1.link.vidpid =
      supported_compositions.lookup "rndis,diag,qdss,serial_cdev,dpl,adb" ∧
    supported_compositions.lookup "rndis,diag,qdss,serial_cdev,dpl,adb" =
      some ("0x05C6", "0x90E9") := by
  obtain ⟨hs, hl, hv2, _⟩ := setup33 env hasCb st hgn hlink hvp hmt hlinked
  refine ⟨hs, ?_, ?_, ?_, by decide⟩
  · rw [hl]
    rfl
  · rw [hl]
    rfl
  · rw [hv2]
    decide

/-- Claim C7 witness: the end-to-end run on the baseline environment. -/
theorem claim_C7_witness :
    (setupFunctions envBase 33 true gs0).2 = UStatus.SUCCESS ∧
    (setupFunctions envBase 33 true gs0).1.link.linked.map LinkEntry.tok =
      ["rndis", "diag", "qdss", "serial_cdev", "dpl", "adb"] ∧
    (setupFunctions envBase 33 true gs0).1.link.linked.map LinkEntry.idx =
      [0, 1, 2, 3, 4, 5] ∧
    (setupFunctions envBase 33 true gs0).1.link.vidpid =
      supported_compositions.lookup "rndis,diag,qdss,serial_cdev,dpl,adb" ∧
    supported_compositions.lookup "rndis,diag,qdss,serial_cdev,dpl,adb" =
      some ("0x05C6", "0x90E9") :=
  claim_C7 envBase true gs0 (by decide) (by intro n i; rfl) (by intro v p; rfl)
    (by decide) rfl

lemma val36 (env : Env) (ls : LinkSt) :
    validateAndSetVidPid env 36 ls = (ls, UStatus.CONFIGURATION_NOT_SUPPORTED) := rfl

lemma val33 (env : Env) (ls : LinkSt)
    (hvp : ∀ v p, env.setVidPidOk v p = true) :
    validateAndSetVidPid env 33 ls =
      ({ ls with
          vidpid := some ("0x18d1", "0x4ee4"),
          vidpidLog := ls.vidpidLog ++ [("0x18d1", "0x4ee4")] }, UStatus.SUCCESS) := by
  show (match setVidPidM env "0x18d1" "0x4ee4" ls with
        | (st1, true) => (st1, UStatus.SUCCESS)
        | (st1, false) => (st1, UStatus.ERROR)) = _
  unfold setVidPidM
  rw [hvp "0x18d1" "0x4ee4", if_pos rfl]

/-- Claim C6 counterexample: the request Rndis|Mtp (= 36) contains Rndis yet
fails at the generic bitmask-to-VID/PID validation with
CONFIGURATION_NOT_SUPPORTED before the resolver's RNDIS branch runs (nothing
is linked, no VID/PID is ever committed), contrary to the claim that a
request containing Rndis does not fail at that validation. -/
theorem claim_C6_counterexample :
    (36 : Nat) &&& GadgetFunction.RNDIS ≠ 0 ∧
    (setCurrentUsbFunctions envBase 36 true gs0).2 =
      UStatus.CONFIGURATION_NOT_SUPPORTED ∧
    (setCurrentUsbFunctions envBase 36 true gs0).1.link.linked = [] ∧
    (setCurrentUsbFunctions envBase 36 true gs0).1.link.vidpidLog = [] := by
  refine ⟨by decide, by decide, by decide, by decide⟩

/-- Claim C6 (amended): validateAndSetVidPid runs on every non-NONE request,
including those containing Rndis.  A Rndis bitmask with a generic table
entry (Rndis|Adb = 33) passes validation — which commits the generic
VID/PID first — and the resolver's composition-table lookup then overwrites
it, so the finally committed VID/PID does come from the table; but a Rndis
bitmask without a generic entry (Rndis|Mtp = 36) fails at validation with
CONFIGURATION_NOT_SUPPORTED before the RNDIS branch runs. -/
theorem claim_C6 (env : Env) (st : GState)
    (hreset : env.resetOk = true)
    (hgn : getProp env.usbController "" ≠ "")
    (hlink : ∀ n i, env.linkOk n i = true)
    (hvp : ∀ v p, env.setVidPidOk v p = true)
    (hmt : getModemType env = Mdm.INTERNAL)
    (hlog : st.link.vidpidLog = []) :
    ((setCurrentUsbFunctions env 36 true st).2 =
        UStatus.CONFIGURATION_NOT_SUPPORTED ∧
      (setCurrentUsbFunctions env 36 true st).1.link.linked = [] ∧
      (setCurrentUsbFunctions env 36 true st).1.link.vidpidLog =
        st.link.vidpidLog) ∧
    ((setCurrentUsbFunctions env 33 true st).2 = UStatus.SUCCESS ∧
      (setCurrentUsbFunctions env 33 true st).1.link.vidpidLog =
        [("0x18d1", "0x4ee4"), ("0x05C6", "0x90E9")] ∧
      (setCurrentUsbFunctions env 33 true st).1.link.vidpid =
        some ("0x05C6", "0x90E9")) := by
  constructor
  · unfold setCurrentUsbFunctions
    dsimp only
    rw [tearDownGadget_ok env _ hreset]
    dsimp only
    rw [if_neg (by decide : ¬((true : Bool) = false)),
      if_neg (by decide : ¬((36 : Nat) = GadgetFunction.NONE))]
    rw [val36]
    dsimp only
    rw [if_neg (by decide :
      ¬(UStatus.CONFIGURATION_NOT_SUPPORTED = UStatus.SUCCESS))]
    refine ⟨errorOut_snd _ _ _ _, ?_, ?_⟩
    · rw [errorOut_link]
      try rfl
    · rw [errorOut_link]
      try rfl
  · unfold setCurrentUsbFunctions
    dsimp only
    rw [tearDownGadget_ok env _ hreset]
    dsimp only
    rw [if_neg (by decide : ¬((true : Bool) = false)),
      if_neg (by decide : ¬((33 : Nat) = GadgetFunction.NONE))]
    rw [val33 env _ hvp]
    dsimp only
    rw [if_pos rfl]
    obtain ⟨hs, hl, hv2, hlog2⟩ := setup33 env true
      ⟨⟨[], (setCurrentPrologue 33 st).link.nextIdx,
        (setCurrentPrologue 33 st).link.ffsEnabled,
        some ("0x18d1", "0x4ee4"),
        (setCurrentPrologue 33 st).link.vidpidLog ++ [("0x18d1", "0x4ee4")]⟩,
       false, (setCurrentPrologue 33 st).applied,
       (setCurrentPrologue 33 st).currentFunctions, false,
       (setCurrentPrologue 33 st).cbResults⟩
      hgn hlink hvp hmt rfl
    rw [if_pos hs]
    refine ⟨rfl, ?_, hv2⟩
    refine hlog2.trans ?_
    show ((setCurrentPrologue 33 st).link.vidpidLog ++ [("0x18d1", "0x4ee4")])
        ++ [("0x05C6", "0x90E9")] =
      [("0x18d1", "0x4ee4"), ("0x05C6", "0x90E9")]
    rw [show (setCurrentPrologue 33 st).link.vidpidLog = st.link.vidpidLog from rfl, hlog]
    rfl

/-- Claim C6 witness: the amended statement at the baseline environment. -/
theorem claim_C6_witness :
    ((setCurrentUsbFunctions envBase 36 true gs0).2 =
        UStatus.CONFIGURATION_NOT_SUPPORTED ∧
      (setCurrentUsbFunctions envBase 36 true gs0).1.link.linked = [] ∧
      (setCurrentUsbFunctions envBase 36 true gs0).1.link.vidpidLog =
        gs0.link.vidpidLog) ∧
    ((setCurrentUsbFunctions envBase 33 true gs0).2 = UStatus.SUCCESS ∧
      (setCurrentUsbFunctions envBase 33 true gs0).1.link.vidpidLog =
        [("0x18d1", "0x4ee4"), ("0x05C6", "0x90E9")] ∧
      (setCurrentUsbFunctions envBase 33 true gs0).1.link.vidpid =
        some ("0x05C6", "0x90E9")) :=
  claim_C6 envBase gs0 (by decide) (by decide) (by intro n i; rfl)
    (by intro v p; rfl) (by decide) rfl

lemma lookupAndSetVidPid_ok (env : Env) (prop : String) (st : LinkSt)
    (vp : String × String)
    (hvp : ∀ v p, env.setVidPidOk v p = true)
    (hlook : supported_compositions.lookup prop = some vp) :
    (lookupAndSetVidPid env prop st).2 = true := by
  unfold lookupAndSetVidPid
  rw [hlook]
  rcases vp with ⟨v, p⟩
  unfold setVidPidM
  dsimp only
  rw [hvp v p, if_pos rfl]

/-- Claim C9: for each of the six built-in topology-default composition
strings, every comma token is a key of the function-name table and the full
string has a VID/PID row; consequently, with the collaborator primitives
succeeding, addFunctionsFromPropString and lookupAndSetVidPid both succeed
on the default paths — the UnsupportedFunction and UnsupportedComposition
error branches are unreachable there. -/
theorem claim_C9 (env : Env)
    (hlink : ∀ n i, env.linkOk n i = true)
    (hvp : ∀ v p, env.setVidPidOk v p = true) :
    ∀ comp ∈ defaultCompositions,
      ((splitComma comp).all fun t => (supported_funcs env t).isSome) = true ∧
      (supported_compositions.lookup comp).isSome = true ∧
      ∀ st : LinkSt, (addFunctionsFromPropString env comp false st).2 = true ∧
        (lookupAndSetVidPid env comp
          (addFunctionsFromPropString env comp false st).1).2 = true := by
  intro comp hcomp
  fin_cases hcomp
  · refine ⟨rfl, by decide, fun st => ?_⟩
    have hallb : ((splitComma (rndisAdbComp Mdm.EXTERNAL)).all
        fun t => (supported_funcs env t).isSome) = true := rfl
    refine ⟨congrArg Prod.snd
      (addFuncTokens_run env hlink _ st
        fun t ht _ => List.all_eq_true.mp hallb t ht), ?_⟩
    exact lookupAndSetVidPid_ok env _ _ ("0x05C6", "0x90E7") hvp (by decide)
  · refine ⟨rfl, by decide, fun st => ?_⟩
    have hallb : ((splitComma (rndisAdbComp Mdm.INTERNAL)).all
        fun t => (supported_funcs env t).isSome) = true := rfl
    refine ⟨congrArg Prod.snd
      (addFuncTokens_run env hlink _ st
        fun t ht _ => List.all_eq_true.mp hallb t ht), ?_⟩
    exact lookupAndSetVidPid_ok env _ _ ("0x05C6", "0x90E9") hvp (by decide)
  · refine ⟨rfl, by decide, fun st => ?_⟩
    have hallb : ((splitComma (rndisAdbComp Mdm.NONE)).all
        fun t => (supported_funcs env t).isSome) = true := rfl
    refine ⟨congrArg Prod.snd
      (addFuncTokens_run env hlink _ st
        fun t ht _ => List.all_eq_true.mp hallb t ht), ?_⟩
    exact lookupAndSetVidPid_ok env _ _ ("0x05C6", "0x9024") hvp (by decide)
  · refine ⟨rfl, by decide, fun st => ?_⟩
    have hallb : ((splitComma (adbDefaultComp Mdm.EXTERNAL)).all
        fun t => (supported_funcs env t).isSome) = true := rfl
    refine ⟨congrArg Prod.snd
      (addFuncTokens_run env hlink _ st
        fun t ht _ => List.all_eq_true.mp hallb t ht), ?_⟩
    exact lookupAndSetVidPid_ok env _ _ ("0x05C6", "0x90E5") hvp (by decide)
  · refine ⟨rfl, by decide, fun st => ?_⟩
    have hallb : ((splitComma (adbDefaultComp Mdm.INTERNAL)).all
        fun t => (supported_funcs env t).isSome) = true := rfl
    refine ⟨congrArg Prod.snd
      (addFuncTokens_run env hlink _ st
        fun t ht _ => List.all_eq_true.mp hallb t ht), ?_⟩
    exact lookupAndSetVidPid_ok env _ _ ("0x05C6", "0x90DB") hvp (by decide)
  · refine ⟨rfl, by decide, fun st => ?_⟩
    have hallb : ((splitComma (adbDefaultComp Mdm.NONE)).all
        fun t => (supported_funcs env t).isSome) = true := rfl
    refine ⟨congrArg Prod.snd
      (addFuncTokens_run env hlink _ st
        fun t ht _ => List.all_eq_true.mp hallb t ht), ?_⟩
    exact lookupAndSetVidPid_ok env _ _ ("0x05C6", "0x901D") hvp (by decide)

/-- Claim C9 witness: the default ADB composition of the NONE topology
("diag,adb") on the baseline environment. -/
theorem claim_C9_witness :
    ((splitComma (adbDefaultComp Mdm.NONE)).all
      fun t => (supported_funcs envBase t).isSome) = true ∧
    (supported_compositions.lookup (adbDefaultComp Mdm.NONE)).isSome = true ∧
    (addFunctionsFromPropString envBase (adbDefaultComp Mdm.NONE) false gs0.link).2 = true ∧
    (lookupAndSetVidPid envBase (adbDefaultComp Mdm.NONE)
      (addFunctionsFromPropString envBase (adbDefaultComp Mdm.NONE) false gs0.link).1).2 =
      true := by
  obtain ⟨h1, h2, h3⟩ := claim_C9 envBase (by intro n i; rfl) (by intro v p; rfl)
    (adbDefaultComp Mdm.NONE) (by decide)
  exact ⟨h1, h2, (h3 gs0.link).1, (h3 gs0.link).2⟩

lemma addGeneric_id (env : Env) (fns : Nat) (ls : LinkSt)
    (hg0 : env.genericLinks fns = []) (hgok : env.genericOk fns = true)
    (hgffs : env.genericFfs fns = false) :
    addGeneric env fns ls = (ls, true) := by
  unfold addGeneric
  rw [hg0, hgok, hgffs]
  simp [indexFrom]

lemma filterAdbAppend (mtype : Mdm) :
    ((splitComma (adbDefaultComp mtype)).filter fun t => t ≠ "adb") ++ ["adb"] =
      splitComma (adbDefaultComp mtype) := by
  cases mtype <;> decide

lemma tryDefault_run (env : Env) (mtype : Mdm) (ls : LinkSt)
    (hlink : ∀ n i, env.linkOk n i = true)
    (hvp : ∀ v p, env.setVidPidOk v p = true)
    (hll : ls.linked = []) :
    (tryDefault env mtype ls).2 = true ∧
    (tryDefault env mtype ls).1.linked.map LinkEntry.tok =
      ((splitComma (adbDefaultComp mtype)).filter fun t => t ≠ "adb") ∧
    (tryDefault env mtype ls).1.vidpid =
      supported_compositions.lookup (adbDefaultComp mtype) ∧
    (tryDefault env mtype ls).1.ffsEnabled = ls.ffsEnabled := by
  cases mtype
  case INTERNAL =>
    unfold tryDefault addFunctionsFromPropString
    have hsp : splitComma (adbDefaultComp Mdm.INTERNAL) =
        ["diag", "serial_cdev", "rmnet", "dpl", "qdss", "adb"] := by decide
    rw [hsp]
    rw [addFuncTokens_run env hlink _ ls (by intro t ht _; fin_cases ht <;> rfl)]
    have hfil : (["diag", "serial_cdev", "rmnet", "dpl", "qdss", "adb"].filter
        fun t => t ≠ "adb") = ["diag", "serial_cdev", "rmnet", "dpl", "qdss"] := by decide
    rw [hfil]
    rw [andThen_true]
    unfold lookupAndSetVidPid
    rw [show supported_compositions.lookup (adbDefaultComp Mdm.INTERNAL) =
      some ("0x05C6", "0x90DB") from by decide]
    dsimp only
    unfold setVidPidM
    rw [hvp "0x05C6" "0x90DB", if_pos rfl]
    refine ⟨rfl, ?_, rfl, rfl⟩
    rw [hll]
    rfl
  case EXTERNAL =>
    unfold tryDefault addFunctionsFromPropString
    have hsp : splitComma (adbDefaultComp Mdm.EXTERNAL) =
        ["diag", "diag_mdm", "qdss", "qdss_mdm", "serial_cdev", "dpl", "rmnet", "adb"] := by
      decide
    rw [hsp]
    rw [addFuncTokens_run env hlink _ ls (by intro t ht _; fin_cases ht <;> rfl)]
    have hfil : (["diag", "diag_mdm", "qdss", "qdss_mdm", "serial_cdev", "dpl", "rmnet",
        "adb"].filter fun t => t ≠ "adb") =
        ["diag", "diag_mdm", "qdss", "qdss_mdm", "serial_cdev", "dpl", "rmnet"] := by decide
    rw [hfil]
    rw [andThen_true]
    unfold lookupAndSetVidPid
    rw [show supported_compositions.lookup (adbDefaultComp Mdm.EXTERNAL) =
      some ("0x05C6", "0x90E5") from by decide]
    dsimp only
    unfold setVidPidM
    rw [hvp "0x05C6" "0x90E5", if_pos rfl]
    refine ⟨rfl, ?_, rfl, rfl⟩
    rw [hll]
    rfl
  case INTERNAL_EXTERNAL =>
    unfold tryDefault addFunctionsFromPropString
    have hsp : splitComma (adbDefaultComp Mdm.INTERNAL_EXTERNAL) =
        ["diag", "diag_mdm", "qdss", "qdss_mdm", "serial_cdev", "dpl", "rmnet", "adb"] := by
      decide
    rw [hsp]
    rw [addFuncTokens_run env hlink _ ls (by intro t ht _; fin_cases ht <;> rfl)]
    have hfil : (["diag", "diag_mdm", "qdss", "qdss_mdm", "serial_cdev", "dpl", "rmnet",
        "adb"].filter fun t => t ≠ "adb") =
        ["diag", "diag_mdm", "qdss", "qdss_mdm", "serial_cdev", "dpl", "rmnet"] := by decide
    rw [hfil]
    rw [andThen_true]
    unfold lookupAndSetVidPid
    rw [show supported_compositions.lookup (adbDefaultComp Mdm.INTERNAL_EXTERNAL) =
      some ("0x05C6", "0x90E5") from by decide]
    dsimp only
    unfold setVidPidM
    rw [hvp "0x05C6" "0x90E5", if_pos rfl]
    refine ⟨rfl, ?_, rfl, rfl⟩
    rw [hll]
    rfl
  case NONE =>
    unfold tryDefault addFunctionsFromPropString
    have hsp : splitComma (adbDefaultComp Mdm.NONE) = ["diag", "adb"] := by decide
    rw [hsp]
    rw [addFuncTokens_run env hlink _ ls (by intro t ht _; fin_cases ht <;> rfl)]
    have hfil : (["diag", "adb"].filter fun t => t ≠ "adb") = ["diag"] := by decide
    rw [hfil]
    rw [andThen_true]
    unfold lookupAndSetVidPid
    rw [show supported_compositions.lookup (adbDefaultComp Mdm.NONE) =
      some ("0x05C6", "0x901D") from by decide]
    dsimp only
    unfold setVidPidM
    rw [hvp "0x05C6" "0x901D", if_pos rfl]
    refine ⟨rfl, ?_, rfl, rfl⟩
    rw [hll]
    rfl

lemma setupLinkAdbOnly (env : Env) (mtype : Mdm) (ls : LinkSt)
    (hlink : ∀ n i, env.linkOk n i = true)
    (hvp : ∀ v p, env.setVidPidOk v p = true)
    (hg0 : env.genericLinks 1 = []) (hgok : env.genericOk 1 = true)
    (hgffs : env.genericFfs 1 = false)
    (hvpne : vendorPropOf env ≠ "")
    (hfail : (∃ t ∈ splitComma (overrideStr env), t ≠ "adb" ∧
        (supported_funcs env t).isSome = false) ∨
      supported_compositions.lookup (overrideStr env) = none)
    (hln : ls.nextIdx = 0) :
    (setupLink env 1 mtype ls).2 = true ∧
    (setupLink env 1 mtype ls).1.linked.map LinkEntry.tok =
      splitComma (adbDefaultComp mtype) ∧
    (setupLink env 1 mtype ls).1.vidpid =
      supported_compositions.lookup (adbDefaultComp mtype) ∧
    (setupLink env 1 mtype ls).1.ffsEnabled = true := by
  have hfinish : ∀ stX : LinkSt,
      (andThen (tryDefault env mtype (unlinkAll stX))
        (fun st2 => enableAdb env 1 st2)).2 = true ∧
      (andThen (tryDefault env mtype (unlinkAll stX))
        (fun st2 => enableAdb env 1 st2)).1.linked.map LinkEntry.tok =
        splitComma (adbDefaultComp mtype) ∧
      (andThen (tryDefault env mtype (unlinkAll stX))
        (fun st2 => enableAdb env 1 st2)).1.vidpid =
        supported_compositions.lookup (adbDefaultComp mtype) ∧
      (andThen (tryDefault env mtype (unlinkAll stX))
        (fun st2 => enableAdb env 1 st2)).1.ffsEnabled = true := by
    intro stX
    obtain ⟨t2, tl, tv, tf⟩ := tryDefault_run env mtype (unlinkAll stX) hlink hvp rfl
    rcases htd : tryDefault env mtype (unlinkAll stX) with ⟨T, bT⟩
    rw [htd] at t2 tl tv tf
    cases bT
    · exact Bool.noConfusion t2
    · rw [andThen_true]
      unfold enableAdb
      rw [if_pos (by decide : (1 : Nat) &&& GadgetFunction.ADB ≠ 0)]
      unfold linkOne
      rw [hlink "ffs.adb" _, if_pos rfl]
      refine ⟨rfl, ?_, tv, rfl⟩
      dsimp only at tl ⊢
      rw [List.map_append, tl]
      simp only [List.map_cons, List.map_nil]
      exact filterAdbAppend mtype
  unfold setupLink branch1
  rw [if_neg (by decide : ¬((1 : Nat) &&& GadgetFunction.RNDIS ≠ 0))]
  rw [addGeneric_id env 1 ls hg0 hgok hgffs]
  rw [andThen_true]
  unfold overrideBlock
  rw [if_pos (⟨hln, by decide⟩ : ls.nextIdx = 0 ∧ (1 : Nat) &&& GadgetFunction.ADB ≠ 0)]
  rw [if_pos hvpne]
  rcases hro : addFunctionsFromPropString env (overrideStr env) false ls with ⟨st1, b1⟩
  cases b1
  · dsimp only
    exact hfinish st1
  · dsimp only
    rcases hro2 : lookupAndSetVidPid env (overrideStr env) st1 with ⟨st2, b2⟩
    cases b2
    · dsimp only
      exact hfinish st2
    · exfalso
      cases hfail with
      | inl hbad =>
        obtain ⟨t, ht, htad, htns⟩ := hbad
        have hf := addFuncTokens_fail env hlink (splitComma (overrideStr env)) ls t ht htad htns
        unfold addFunctionsFromPropString at hro
        rw [hro] at hf
        simp at hf
      | inr hnone =>
        unfold lookupAndSetVidPid at hro2
        rw [hnone] at hro2
        injection hro2 with h1 h2
        exact Bool.noConfusion h2

/-- Claim C2: when the vendor override string is non-empty and the override
attempt fails — some non-"adb" token of the ADB-appended override string is
not in the function-name table, or the full string has no VID/PID row — the
whole linked set is rolled back (unlinkFunctions) and the cycle completes
with the linked functions being exactly the topology-default ADB composition
for the current topology, with its table VID/PID; no residue of the failed
override attempt remains. -/
theorem claim_C2 (env : Env) (hasCb : Bool) (st : GState)
    (hgn : getProp env.usbController "" ≠ "")
    (hlink : ∀ n i, env.linkOk n i = true)
    (hvp : ∀ v p, env.setVidPidOk v p = true)
    (hg0 : env.genericLinks 1 = []) (hgok : env.genericOk 1 = true)
    (hgffs : env.genericFfs 1 = false)
    (hvpne : vendorPropOf env ≠ "")
    (hfail : (∃ t ∈ splitComma (overrideStr env), t ≠ "adb" ∧
        (supported_funcs env t).isSome = false) ∨
      supported_compositions.lookup (overrideStr env) = none) :
    (setupFunctions env 1 hasCb st).2 = UStatus.SUCCESS ∧
    (setupFunctions env 1 hasCb st).1.link.linked.map LinkEntry.tok =
      splitComma (adbDefaultComp (getModemType env)) ∧
    (setupFunctions env 1 hasCb st).1.link.vidpid =
      supported_compositions.lookup (adbDefaultComp (getModemType env)) := by
  obtain ⟨s2, sl, sv, sf⟩ := setupLinkAdbOnly env (getModemType env)
    { st.link with nextIdx := 0, ffsEnabled := false } hlink hvp hg0 hgok hgffs
    hvpne hfail rfl
  unfold setupFunctions
  dsimp only
  rw [if_neg hgn]
  rw [if_pos s2]
  refine ⟨setupFinish_ffs_success env 1 hasCb _ sf, ?_, ?_⟩
  · rw [(setupFinish_parts env 1 hasCb _).1]
    exact sl
  · rw [(setupFinish_parts env 1 hasCb _).1]
    exact sv

/-- Claim C2 witness: override "diag,foo" (token "foo" unsupported) on the
baseline environment falls back to the INTERNAL-topology default ADB
composition. -/
theorem claim_C2_witness :
    (setupFunctions envOvrBad 1 true gs0).2 = UStatus.SUCCESS ∧
    (setupFunctions envOvrBad 1 true gs0).1.link.linked.map LinkEntry.tok =
      splitComma (adbDefaultComp (getModemType envOvrBad)) ∧
    (setupFunctions envOvrBad 1 true gs0).1.link.vidpid =
      supported_compositions.lookup (adbDefaultComp (getModemType envOvrBad)) :=
  claim_C2 envOvrBad true gs0 (by decide) (by intro n i; rfl) (by intro v p; rfl)
    rfl rfl rfl (by decide) (Or.inl (by decide))
